import Mathlib

/-!
Verification of the GLOS container format and pipelines.

Shallow embedding of the GLOS reference implementation:
* `glos-core/src/format.rs` — header and block codecs with CRC32 framing,
* `glos-core/src/serialization.rs` — the streaming reader with
  byte-at-a-time corruption resynchronization,
* `glos-core/src/replayer.rs` — the UDP wire codec and timing controller,
* `glos-recorder/src/device.rs` — the simulated device producer with its
  drop-on-full backpressure policy.

Machine integers are modelled as `Nat` with explicit bounds; byte buffers
are `List Nat` with every element `< 256`; fallible operations return
`Except GlosError`.  The `f32` gain field is modelled by its exact bit
pattern (`f32::to_bits` / `f32::from_bits` are mutually inverse bit
casts, so storing the 32-bit pattern is a lossless view of the float).
-/

namespace Glos

/-! ## Byte-level integer codecs

`u32::to_be_bytes`, `u64::to_le_bytes`, … from the Rust standard library,
specialised to byte lists. -/

/-- Big-endian encoding of `v` into `w` bytes (`to_be_bytes`). -/
def toBEBytes : Nat → Nat → List Nat
  | 0, _ => []
  | w + 1, v => toBEBytes w (v / 256) ++ [v % 256]

/-- Little-endian encoding of `v` into `w` bytes (`to_le_bytes`). -/
def toLEBytes : Nat → Nat → List Nat
  | 0, _ => []
  | w + 1, v => v % 256 :: toLEBytes w (v / 256)

/-- Big-endian decoding (`from_be_bytes`). -/
def fromBEBytes (l : List Nat) : Nat := l.foldl (fun a b => a * 256 + b) 0

/-- Little-endian decoding (`from_le_bytes`). -/
def fromLEBytes : List Nat → Nat
  | [] => 0
  | b :: t => b + 256 * fromLEBytes t

/-! ## CRC32 (IEEE 802.3, as computed by `crc32fast`)

Reflected polynomial `0xEDB88320`, initial value `0xFFFFFFFF`, final
xor `0xFFFFFFFF` — the standard CRC-32 used by the `crc32fast` crate
(`crc32_checksum` in `format.rs`). -/

def CRC_POLY : Nat := 0xEDB88320

/-- One bit-step of the reflected CRC32 update. -/
def crcRound (c : Nat) : Nat :=
  if c &&& 1 = 1 then (c >>> 1) ^^^ CRC_POLY else c >>> 1

/-- Iterate `crcRound` `n` times. -/
def crcRounds : Nat → Nat → Nat
  | 0, c => c
  | n + 1, c => crcRounds n (crcRound c)

/-- Absorb one data byte into the CRC state. -/
def crcByte (c v : Nat) : Nat := crcRounds 8 (c ^^^ v)

/-- `crc32_checksum` from `format.rs` (via `crc32fast::Hasher`). -/
def crc32_checksum (data : List Nat) : Nat :=
  (data.foldl crcByte 0xFFFFFFFF) ^^^ 0xFFFFFFFF

/-- All elements of a buffer are bytes. -/
def allBytes (l : List Nat) : Prop := ∀ b ∈ l, b < 256

/-- Flip every bit of the byte at position `p` (the repository's corruption
idiom `buf[p] ^= 0xFF`). -/
def flipAt (l : List Nat) (p : Nat) : List Nat :=
  l.set p ((l.getD p 0) ^^^ 255)

/-! ## Format data model (`glos-core/src/format.rs`) -/

/-- Magic number `b"GLOS"`. -/
def GLOS_MAGIC : List Nat := [71, 76, 79, 83]

def GLOS_VERSION : Nat := 1

def GLOS_HEADER_SIZE : Nat := 128

def GLOS_MIN_BLOCK_SIZE : Nat := 32

def GLOS_MAX_BLOCK_SIZE : Nat := 1024 * 1024

/-- `SdrType` (device-type enum). -/
inductive SdrType where
  | HackRf
  | PlutoSdr
  | UsrpB200
  | Unknown
  deriving DecidableEq, Repr

/-- `IqFormat` (sample-format enum). -/
inductive IqFormat where
  | Int8
  | Int16
  | Float32
  deriving DecidableEq, Repr

/-- `Compression` enum. -/
inductive Compression where
  | None
  | Lz4
  deriving DecidableEq, Repr

/-- `GlosError` (`glos-types/src/error.rs`); string payloads and the
`io::Error` payload are dropped — only the variant identity matters for
control flow. -/
inductive GlosError where
  | InvalidMagic
  | UnsupportedVersion (found expected : Nat)
  | CrcMismatch (expected found : Nat)
  | Corrupted
  | InvalidBlockSize (size : Nat)
  | Io
  | FormatViolation
  deriving DecidableEq, Repr

instance {e a : Type} [DecidableEq e] [DecidableEq a] : DecidableEq (Except e a) :=
  fun x y =>
    match x, y with
    | .ok u, .ok v =>
      if h : u = v then isTrue (by rw [h]) else isFalse (by simp [h])
    | .error u, .error v =>
      if h : u = v then isTrue (by rw [h]) else isFalse (by simp [h])
    | .ok _, .error _ => isFalse (by simp)
    | .error _, .ok _ => isFalse (by simp)

def SdrType.from_u8 (v : Nat) : SdrType :=
  match v with
  | 0 => .HackRf
  | 1 => .PlutoSdr
  | 2 => .UsrpB200
  | _ => .Unknown

def SdrType.as_u8 : SdrType → Nat
  | .HackRf => 0
  | .PlutoSdr => 1
  | .UsrpB200 => 2
  | .Unknown => 255

def IqFormat.from_u8 (v : Nat) : Except GlosError IqFormat :=
  match v with
  | 0 => .ok .Int8
  | 1 => .ok .Int16
  | 2 => .ok .Float32
  | _ => .error .FormatViolation

def IqFormat.as_u8 : IqFormat → Nat
  | .Int8 => 0
  | .Int16 => 1
  | .Float32 => 2

/-- Size in bytes of one IQ pair. -/
def IqFormat.sample_size : IqFormat → Nat
  | .Int8 => 2
  | .Int16 => 4
  | .Float32 => 8

def Compression.from_u8 (v : Nat) : Except GlosError Compression :=
  match v with
  | 0 => .ok .None
  | 1 => .ok .Lz4
  | _ => .error .FormatViolation

def Compression.as_u8 : Compression → Nat
  | .None => 0
  | .Lz4 => 1

/-- `GlosHeader`.  `gain_db` is stored through `f32::to_bits`, so it is
modelled here directly by its 32-bit pattern `gain_db_bits`. -/
structure GlosHeader where
  version : Nat
  flags : Nat
  sdr_type : SdrType
  iq_format : IqFormat
  compression : Compression
  sample_rate : Nat
  center_freq : Nat
  gain_db_bits : Nat
  timestamp_start : Nat
  timestamp_end : Nat
  total_samples : Nat
  deriving DecidableEq, Repr

/-- Field ranges of the Rust struct (`u8`/`u32`/`u64` fields), plus the
format-version requirement a valid GLOS header carries. -/
def GlosHeader.WF (h : GlosHeader) : Prop :=
  h.version = GLOS_VERSION ∧ h.flags < 256 ∧ h.sample_rate < 2 ^ 32 ∧
  h.center_freq < 2 ^ 64 ∧ h.gain_db_bits < 2 ^ 32 ∧
  h.timestamp_start < 2 ^ 64 ∧ h.timestamp_end < 2 ^ 64 ∧
  h.total_samples < 2 ^ 64

/-- `write_u32_local` / `write_u64_local`: endianness-selected encoding. -/
def writeInt (is_le : Bool) (w v : Nat) : List Nat :=
  if is_le then toLEBytes w v else toBEBytes w v

/-- `read_u32_local` / `read_u64_local`: endianness-selected decoding. -/
def readInt (is_le : Bool) (l : List Nat) : Nat :=
  if is_le then fromLEBytes l else fromBEBytes l

/-- The checksum-covered prefix (`buf[0..72)`) laid out by
`GlosHeader::serialize`: magic, version, flags, 6 padding bytes, the three
enum bytes, 1 padding byte, the six endianness-flagged integer fields,
then the 16 still-zero bytes `[56..72)`. -/
def GlosHeader.bodyBytes (h : GlosHeader) : List Nat :=
  let is_le := h.flags &&& 1 == 1
  GLOS_MAGIC ++ [h.version] ++ [h.flags] ++ List.replicate 6 0 ++
    [h.sdr_type.as_u8] ++ [h.iq_format.as_u8] ++ [h.compression.as_u8] ++ [0] ++
    writeInt is_le 4 h.sample_rate ++ writeInt is_le 8 h.center_freq ++
    writeInt is_le 4 h.gain_db_bits ++ writeInt is_le 8 h.timestamp_start ++
    writeInt is_le 8 h.timestamp_end ++ writeInt is_le 8 h.total_samples ++
    List.replicate 16 0

/-- `GlosHeader::serialize`: the 128-byte record.  (The Rust function
returns `GlosResult` but has no error path; the body prefix is followed by
the big-endian CRC32 of bytes `[0..72)` and 52 reserved zero bytes.) -/
def GlosHeader.serialize (h : GlosHeader) : List Nat :=
  h.bodyBytes ++ toBEBytes 4 (crc32_checksum h.bodyBytes) ++ List.replicate 52 0

/-- `buf[off..off+n]`. -/
def slice (l : List Nat) (off n : Nat) : List Nat := (l.drop off).take n

/-- `buf[i]` (buffers in the claims always have the accessed index in
range, so the default value is never read). -/
def byteAt (l : List Nat) (i : Nat) : Nat := l.getD i 0

/-- `GlosHeader::deserialize` on a 128-byte buffer: magic and version
checks, enum decoding (device byte infallible, format/compression bytes
fallible via `?`, modelled by the explicit matches), endianness-flagged
field reads, then the CRC32 comparison. -/
def GlosHeader.deserialize (buf : List Nat) : Except GlosError GlosHeader :=
  if slice buf 0 4 ≠ GLOS_MAGIC then .error .InvalidMagic
  else
    let version := byteAt buf 4
    if version ≠ GLOS_VERSION then .error (.UnsupportedVersion version GLOS_VERSION)
    else
      let flags := byteAt buf 5
      let is_le := flags &&& 1 == 1
      let sdr_type := SdrType.from_u8 (byteAt buf 12)
      match IqFormat.from_u8 (byteAt buf 13) with
      | .error e => .error e
      | .ok iq_format =>
        match Compression.from_u8 (byteAt buf 14) with
        | .error e => .error e
        | .ok compression =>
          let sample_rate := readInt is_le (slice buf 16 4)
          let center_freq := readInt is_le (slice buf 20 8)
          let gain_db_bits := readInt is_le (slice buf 28 4)
          let timestamp_start := readInt is_le (slice buf 32 8)
          let timestamp_end := readInt is_le (slice buf 40 8)
          let total_samples := readInt is_le (slice buf 48 8)
          let stored_crc := fromBEBytes (slice buf 72 4)
          let calculated_crc := crc32_checksum (slice buf 0 72)
          if stored_crc ≠ calculated_crc then
            .error (.CrcMismatch calculated_crc stored_crc)
          else
            .ok { version, flags, sdr_type, iq_format, compression, sample_rate,
                  center_freq, gain_db_bits, timestamp_start, timestamp_end,
                  total_samples }

/-! ## IQ blocks (`IqBlock` in `format.rs`) -/

/-- `IqBlock`.  `data` holds the raw sample bytes. -/
structure IqBlock where
  timestamp_ns : Nat
  sample_count : Nat
  data : List Nat
  is_compressed : Bool
  deriving DecidableEq, Repr

/-- `IqBlock::new`. -/
def IqBlock.new (timestamp_ns sample_count : Nat) (data : List Nat) : IqBlock :=
  { timestamp_ns, sample_count, data, is_compressed := false }

/-- Field ranges of the Rust struct (`u64`/`u32` fields, `Vec<u8>` data). -/
def IqBlock.WF (b : IqBlock) : Prop :=
  b.timestamp_ns < 2 ^ 64 ∧ b.sample_count < 2 ^ 32 ∧ allBytes b.data

/-- The checksum-covered region `buf[4..]` of a serialized block:
sample count, timestamp, data. -/
def IqBlock.payloadBytes (b : IqBlock) : List Nat :=
  toBEBytes 4 b.sample_count ++ toBEBytes 8 b.timestamp_ns ++ b.data

/-- `IqBlock::serialize`: size guard, then
`content_size ‖ sample_count ‖ timestamp ‖ data ‖ CRC32`, all big-endian.
`content_size` is computed `as u32`, hence the `% 2 ^ 32`. -/
def IqBlock.serialize (b : IqBlock) : Except GlosError (List Nat) :=
  let block_size := 4 + 4 + 8 + b.data.length + 4
  if block_size > GLOS_MAX_BLOCK_SIZE then .error (.InvalidBlockSize block_size)
  else
    let content_size := (4 + 8 + b.data.length) % 2 ^ 32
    .ok (toBEBytes 4 content_size ++ b.payloadBytes ++
      toBEBytes 4 (crc32_checksum b.payloadBytes))

/-- `IqBlock::deserialize`: minimum-size check, declared-length check
(`Corrupted` when the buffer cannot hold it), `content_size.checked_sub(12)`
(`Corrupted` on underflow), CRC comparison over `buf[4..4+content_size]`,
and `is_compressed` taken from the file-level compression mode. -/
def IqBlock.deserialize (buf : List Nat) (compression : Compression) :
    Except GlosError (IqBlock × Nat) :=
  if buf.length < 20 then .error .Corrupted
  else
    let content_size := fromBEBytes (slice buf 0 4)
    if 4 + content_size + 4 > buf.length then .error .Corrupted
    else
      let sample_count := fromBEBytes (slice buf 4 4)
      let timestamp_ns := fromBEBytes (slice buf 8 8)
      if content_size < 12 then .error .Corrupted
      else
        let data_len := content_size - 12
        let data := slice buf 16 data_len
        let stored_crc := fromBEBytes (slice buf (4 + content_size) 4)
        let calculated_crc := crc32_checksum (slice buf 4 content_size)
        if stored_crc ≠ calculated_crc then
          .error (.CrcMismatch calculated_crc stored_crc)
        else
          .ok ({ timestamp_ns, sample_count, data,
                 is_compressed := compression == .Lz4 }, 4 + content_size + 4)

/-- `IqBlock::validate_sample_count`. -/
def IqBlock.validate_sample_count (b : IqBlock) (iq_format : IqFormat) :
    Except GlosError Unit :=
  if b.is_compressed then .ok ()
  else if b.data.length ≠ b.sample_count * iq_format.sample_size then
    .error .FormatViolation
  else .ok ()

/-- `IqBlock::decompress`, parameterized over the external
`lz4_flex::decompress_size_prepended` (an external crate; `none` models
its failure, `some d` a successful decompression to `d`). -/
def IqBlock.decompress (lz4dec : List Nat → Option (List Nat)) (b : IqBlock) :
    Except GlosError IqBlock :=
  if !b.is_compressed then .ok b
  else
    match lz4dec b.data with
    | some d => .ok { b with data := d, is_compressed := false }
    | none => .error .Corrupted

/-! ### Layout facts about serialized blocks -/

/-- The shape of every `IqBlock::serialize` output, with the four
big-endian scalar fields and the raw data laid out explicitly. -/
def blockShape (c cnt ts k : Nat) (data : List Nat) : List Nat :=
  toBEBytes 4 c ++ (toBEBytes 4 cnt ++ toBEBytes 8 ts ++ data) ++ toBEBytes 4 k

/-! ## The streaming reader (`glos-core/src/serialization.rs`)

`GlosReader` is modelled as a functional state machine: `leftover` is the
parse window, `input` the not-yet-read bytes of the underlying source
(the `BufReader`), `eof` and `stats` as in the Rust struct.  The loop in
`next_block` is driven by explicit fuel; `NbOut.fuelOut` never occurs for
sufficient fuel on finite streams. -/

/-- `ReadStats`. -/
structure ReadStats where
  blocks_ok : Nat
  blocks_corrupted : Nat
  samples_recovered : Nat
  bytes_processed : Nat
  deriving DecidableEq, Repr

/-- The reader's mutable state. -/
structure ReaderState where
  leftover : List Nat
  input : List Nat
  eof : Bool
  stats : ReadStats
  deriving DecidableEq, Repr

/-- `read_buf` capacity (2 MiB). -/
def READ_BUF_SIZE : Nat := 2 * 1024 * 1024

/-- Outcome of one `next_block` call: a yielded item (`Some(result)` in
Rust), end of iteration (`None`), or fuel exhaustion. -/
inductive NbOut where
  | yield (r : Except GlosError IqBlock)
  | done
  | fuelOut
  deriving DecidableEq, Repr

/-- The refill section at the bottom of the `next_block` loop: stop at
EOF, otherwise pull up to `READ_BUF_SIZE` bytes from the source into the
window (a read of 0 bytes sets `eof`; with an empty window that ends the
iteration, otherwise the loop continues with `cont`). -/
def readerRefill (cont : ReaderState → NbOut × ReaderState) (s : ReaderState) :
    NbOut × ReaderState :=
  if s.eof then (.done, s)
  else if s.input.isEmpty then
    let s' := { s with eof := true }
    if s'.leftover.isEmpty then (.done, s') else cont s'
  else
    cont { s with leftover := s.leftover ++ s.input.take READ_BUF_SIZE,
                  input := s.input.drop READ_BUF_SIZE }

/-- `GlosReader::next_block`.  On a decoded block: decompress and
validate, treating failure of either as corruption (skip `bytes_read`).
On `Corrupted`: at EOF scan forward one byte, otherwise refill.  On
`CrcMismatch`: count, advance one byte, retry.  On any other decode
error: count, advance one byte, and surface the error. -/
def nextBlockFuel (lz4dec : List Nat → Option (List Nat)) (comp : Compression)
    (fmt : IqFormat) : Nat → ReaderState → NbOut × ReaderState
  | 0, s => (.fuelOut, s)
  | fuel + 1, s =>
    if s.leftover.length ≥ 20 then
      match IqBlock.deserialize s.leftover comp with
      | .ok (block, bytes_read) =>
        match block.decompress lz4dec with
        | .error _ =>
          nextBlockFuel lz4dec comp fmt fuel
            { s with leftover := s.leftover.drop bytes_read,
                     stats := { s.stats with
                       blocks_corrupted := s.stats.blocks_corrupted + 1 } }
        | .ok block' =>
          match block'.validate_sample_count fmt with
          | .error _ =>
            nextBlockFuel lz4dec comp fmt fuel
              { s with leftover := s.leftover.drop bytes_read,
                       stats := { s.stats with
                         blocks_corrupted := s.stats.blocks_corrupted + 1 } }
          | .ok _ =>
            (.yield (.ok block'),
             { s with leftover := s.leftover.drop bytes_read,
                      stats := { s.stats with
                        blocks_ok := s.stats.blocks_ok + 1,
                        samples_recovered :=
                          s.stats.samples_recovered + block'.sample_count,
                        bytes_processed := s.stats.bytes_processed + bytes_read } })
      | .error .Corrupted =>
        if s.eof then
          nextBlockFuel lz4dec comp fmt fuel
            { s with leftover := s.leftover.drop 1 }
        else
          readerRefill (nextBlockFuel lz4dec comp fmt fuel) s
      | .error (.CrcMismatch _ _) =>
        nextBlockFuel lz4dec comp fmt fuel
          { s with leftover := s.leftover.drop 1,
                   stats := { s.stats with
                     blocks_corrupted := s.stats.blocks_corrupted + 1 } }
      | .error e =>
        (.yield (.error e),
         { s with leftover := s.leftover.drop 1,
                  stats := { s.stats with
                    blocks_corrupted := s.stats.blocks_corrupted + 1 } })
    else
      readerRefill (nextBlockFuel lz4dec comp fmt fuel) s

/-- A constructed `GlosReader`: the validated header plus the initial
state. -/
structure GlosReaderModel where
  header : GlosHeader
  state : ReaderState
  deriving DecidableEq, Repr

/-- `GlosReader::new`: read exactly 128 bytes (an I/O error if the source
is shorter), validate them as a header, start with an empty window. -/
def GlosReader.new (stream : List Nat) : Except GlosError GlosReaderModel :=
  if stream.length < 128 then .error .Io
  else
    match GlosHeader.deserialize (stream.take 128) with
    | .error e => .error e
    | .ok header =>
      .ok { header,
            state := { leftover := [], input := stream.drop 128, eof := false,
                       stats := ⟨0, 0, 0, 0⟩ } }

/-- Iterate `next_block` to completion (the `while let Some(res)` loops of
the tests), collecting successfully decoded blocks and discarding yielded
errors.  The final `Bool` records that the iteration genuinely reached
`None` rather than running out of fuel. -/
def runReader (lz4dec : List Nat → Option (List Nat)) (comp : Compression)
    (fmt : IqFormat) : Nat → ReaderState → List IqBlock × ReaderState × Bool
  | 0, s => ([], s, false)
  | fuel + 1, s =>
    match nextBlockFuel lz4dec comp fmt (fuel + 1) s with
    | (.yield (.ok b), s') =>
      let (bs, s'', fin) := runReader lz4dec comp fmt fuel s'
      (b :: bs, s'', fin)
    | (.yield (.error _), s') =>
      let (bs, s'', fin) := runReader lz4dec comp fmt fuel s'
      (bs, s'', fin)
    | (.done, s') => ([], s', true)
    | (.fuelOut, s') => ([], s', false)

/-! ### Stepping lemmas for the reader loop -/

/-- The raw CRC32 folding state (no final xor), for staging concrete CRC
computations. -/
def crcFold (c : Nat) (l : List Nat) : Nat := l.foldl crcByte c

/-! ### Concrete three-block corruption scenario (claim C4)

The stream is a valid header followed by three one-sample blocks in
which the last byte of the middle block's trailing checksum is flipped.
The intermediate reader states and the step lemmas below replay the
byte-at-a-time resynchronization scan explicitly. -/

def c4Header : GlosHeader :=
  { version := 1, flags := 0, sdr_type := .HackRf, iq_format := .Int16,
    compression := .None, sample_rate := 2000000, center_freq := 1602000000,
    gain_db_bits := 0, timestamp_start := 0, timestamp_end := 0,
    total_samples := 0 }

/-- Extract the buffer of a successful serialization. -/
def okBytes : Except GlosError (List Nat) → List Nat
  | .ok l => l
  | .error _ => []

def c4Block (ts cnt : Nat) : IqBlock := IqBlock.new ts cnt (List.replicate (cnt * 4) 0)

/-- Flip the last byte (the low byte of the trailing CRC32). -/
def flipLast (l : List Nat) : List Nat := flipAt l (l.length - 1)

def c4Stream : List Nat :=
  c4Header.serialize ++ okBytes (c4Block 1 1).serialize ++
    flipLast (okBytes (c4Block 2 1).serialize) ++ okBytes (c4Block 3 1).serialize

def c4BodyBytes : List Nat := [71, 76, 79, 83, 1, 0, 0, 0, 0, 0, 0, 0, 0, 1, 0, 0, 0, 30, 132, 128, 0, 0, 0, 0, 95, 124, 148, 128, 0, 0, 0, 0, 0, 0, 0, 0, 0, 0, 0, 0, 0, 0, 0, 0, 0, 0, 0, 0, 0, 0, 0, 0, 0, 0, 0, 0, 0, 0, 0, 0, 0, 0, 0, 0, 0, 0, 0, 0, 0, 0, 0, 0]

def c4HeaderBytes : List Nat := [71, 76, 79, 83, 1, 0, 0, 0, 0, 0, 0, 0, 0, 1, 0, 0, 0, 30, 132, 128, 0, 0, 0, 0, 95, 124, 148, 128, 0, 0, 0, 0, 0, 0, 0, 0, 0, 0, 0, 0, 0, 0, 0, 0, 0, 0, 0, 0, 0, 0, 0, 0, 0, 0, 0, 0, 0, 0, 0, 0, 0, 0, 0, 0, 0, 0, 0, 0, 0, 0, 0, 0, 3, 110, 219, 179, 0, 0, 0, 0, 0, 0, 0, 0, 0, 0, 0, 0, 0, 0, 0, 0, 0, 0, 0, 0, 0, 0, 0, 0, 0, 0, 0, 0, 0, 0, 0, 0, 0, 0, 0, 0, 0, 0, 0, 0, 0, 0, 0, 0, 0, 0, 0, 0, 0, 0, 0, 0]

def c4StreamBytes : List Nat := [71, 76, 79, 83, 1, 0, 0, 0, 0, 0, 0, 0, 0, 1, 0, 0, 0, 30, 132, 128, 0, 0, 0, 0, 95, 124, 148, 128, 0, 0, 0, 0, 0, 0, 0, 0, 0, 0, 0, 0, 0, 0, 0, 0, 0, 0, 0, 0, 0, 0, 0, 0, 0, 0, 0, 0, 0, 0, 0, 0, 0, 0, 0, 0, 0, 0, 0, 0, 0, 0, 0, 0, 3, 110, 219, 179, 0, 0, 0, 0, 0, 0, 0, 0, 0, 0, 0, 0, 0, 0, 0, 0, 0, 0, 0, 0, 0, 0, 0, 0, 0, 0, 0, 0, 0, 0, 0, 0, 0, 0, 0, 0, 0, 0, 0, 0, 0, 0, 0, 0, 0, 0, 0, 0, 0, 0, 0, 0, 0, 0, 0, 16, 0, 0, 0, 1, 0, 0, 0, 0, 0, 0, 0, 1, 0, 0, 0, 0, 12, 77, 187, 96, 0, 0, 0, 16, 0, 0, 0, 1, 0, 0, 0, 0, 0, 0, 0, 2, 0, 0, 0, 0, 75, 237, 193, 79, 0, 0, 0, 16, 0, 0, 0, 1, 0, 0, 0, 0, 0, 0, 0, 3, 0, 0, 0, 0, 118, 141, 232, 0]

def c4State0 : ReaderState :=
  { leftover := [],
    input := [0, 0, 0, 16, 0, 0, 0, 1, 0, 0, 0, 0, 0, 0, 0, 1, 0, 0, 0, 0, 12, 77, 187, 96, 0, 0, 0, 16, 0, 0, 0, 1, 0, 0, 0, 0, 0, 0, 0, 2, 0, 0, 0, 0, 75, 237, 193, 79, 0, 0, 0, 16, 0, 0, 0, 1, 0, 0, 0, 0, 0, 0, 0, 3, 0, 0, 0, 0, 118, 141, 232, 0], eof := false,
    stats := ⟨0, 0, 0, 0⟩ }

def c4State1 : ReaderState :=
  { leftover := [0, 0, 0, 16, 0, 0, 0, 1, 0, 0, 0, 0, 0, 0, 0, 1, 0, 0, 0, 0, 12, 77, 187, 96, 0, 0, 0, 16, 0, 0, 0, 1, 0, 0, 0, 0, 0, 0, 0, 2, 0, 0, 0, 0, 75, 237, 193, 79, 0, 0, 0, 16, 0, 0, 0, 1, 0, 0, 0, 0, 0, 0, 0, 3, 0, 0, 0, 0, 118, 141, 232, 0],
    input := [], eof := false,
    stats := ⟨0, 0, 0, 0⟩ }

def c4State2 : ReaderState :=
  { leftover := [0, 0, 0, 16, 0, 0, 0, 1, 0, 0, 0, 0, 0, 0, 0, 2, 0, 0, 0, 0, 75, 237, 193, 79, 0, 0, 0, 16, 0, 0, 0, 1, 0, 0, 0, 0, 0, 0, 0, 3, 0, 0, 0, 0, 118, 141, 232, 0],
    input := [], eof := false,
    stats := ⟨1, 0, 1, 24⟩ }

def c4State3 : ReaderState :=
  { leftover := [0, 0, 16, 0, 0, 0, 1, 0, 0, 0, 0, 0, 0, 0, 2, 0, 0, 0, 0, 75, 237, 193, 79, 0, 0, 0, 16, 0, 0, 0, 1, 0, 0, 0, 0, 0, 0, 0, 3, 0, 0, 0, 0, 118, 141, 232, 0],
    input := [], eof := false,
    stats := ⟨1, 1, 1, 24⟩ }

def c4State4 : ReaderState :=
  { leftover := [0, 0, 16, 0, 0, 0, 1, 0, 0, 0, 0, 0, 0, 0, 2, 0, 0, 0, 0, 75, 237, 193, 79, 0, 0, 0, 16, 0, 0, 0, 1, 0, 0, 0, 0, 0, 0, 0, 3, 0, 0, 0, 0, 118, 141, 232, 0],
    input := [], eof := true,
    stats := ⟨1, 1, 1, 24⟩ }

def c4State5 : ReaderState :=
  { leftover := [0, 16, 0, 0, 0, 1, 0, 0, 0, 0, 0, 0, 0, 2, 0, 0, 0, 0, 75, 237, 193, 79, 0, 0, 0, 16, 0, 0, 0, 1, 0, 0, 0, 0, 0, 0, 0, 3, 0, 0, 0, 0, 118, 141, 232, 0],
    input := [], eof := true,
    stats := ⟨1, 1, 1, 24⟩ }

def c4State6 : ReaderState :=
  { leftover := [16, 0, 0, 0, 1, 0, 0, 0, 0, 0, 0, 0, 2, 0, 0, 0, 0, 75, 237, 193, 79, 0, 0, 0, 16, 0, 0, 0, 1, 0, 0, 0, 0, 0, 0, 0, 3, 0, 0, 0, 0, 118, 141, 232, 0],
    input := [], eof := true,
    stats := ⟨1, 1, 1, 24⟩ }

def c4State7 : ReaderState :=
  { leftover := [0, 0, 0, 1, 0, 0, 0, 0, 0, 0, 0, 2, 0, 0, 0, 0, 75, 237, 193, 79, 0, 0, 0, 16, 0, 0, 0, 1, 0, 0, 0, 0, 0, 0, 0, 3, 0, 0, 0, 0, 118, 141, 232, 0],
    input := [], eof := true,
    stats := ⟨1, 1, 1, 24⟩ }

def c4State8 : ReaderState :=
  { leftover := [0, 0, 1, 0, 0, 0, 0, 0, 0, 0, 2, 0, 0, 0, 0, 75, 237, 193, 79, 0, 0, 0, 16, 0, 0, 0, 1, 0, 0, 0, 0, 0, 0, 0, 3, 0, 0, 0, 0, 118, 141, 232, 0],
    input := [], eof := true,
    stats := ⟨1, 1, 1, 24⟩ }

def c4State9 : ReaderState :=
  { leftover := [0, 1, 0, 0, 0, 0, 0, 0, 0, 2, 0, 0, 0, 0, 75, 237, 193, 79, 0, 0, 0, 16, 0, 0, 0, 1, 0, 0, 0, 0, 0, 0, 0, 3, 0, 0, 0, 0, 118, 141, 232, 0],
    input := [], eof := true,
    stats := ⟨1, 1, 1, 24⟩ }

def c4State10 : ReaderState :=
  { leftover := [1, 0, 0, 0, 0, 0, 0, 0, 2, 0, 0, 0, 0, 75, 237, 193, 79, 0, 0, 0, 16, 0, 0, 0, 1, 0, 0, 0, 0, 0, 0, 0, 3, 0, 0, 0, 0, 118, 141, 232, 0],
    input := [], eof := true,
    stats := ⟨1, 1, 1, 24⟩ }

def c4State11 : ReaderState :=
  { leftover := [0, 0, 0, 0, 0, 0, 0, 2, 0, 0, 0, 0, 75, 237, 193, 79, 0, 0, 0, 16, 0, 0, 0, 1, 0, 0, 0, 0, 0, 0, 0, 3, 0, 0, 0, 0, 118, 141, 232, 0],
    input := [], eof := true,
    stats := ⟨1, 1, 1, 24⟩ }

def c4State12 : ReaderState :=
  { leftover := [0, 0, 0, 0, 0, 0, 2, 0, 0, 0, 0, 75, 237, 193, 79, 0, 0, 0, 16, 0, 0, 0, 1, 0, 0, 0, 0, 0, 0, 0, 3, 0, 0, 0, 0, 118, 141, 232, 0],
    input := [], eof := true,
    stats := ⟨1, 1, 1, 24⟩ }

def c4State13 : ReaderState :=
  { leftover := [0, 0, 0, 0, 0, 2, 0, 0, 0, 0, 75, 237, 193, 79, 0, 0, 0, 16, 0, 0, 0, 1, 0, 0, 0, 0, 0, 0, 0, 3, 0, 0, 0, 0, 118, 141, 232, 0],
    input := [], eof := true,
    stats := ⟨1, 1, 1, 24⟩ }

def c4State14 : ReaderState :=
  { leftover := [0, 0, 0, 0, 2, 0, 0, 0, 0, 75, 237, 193, 79, 0, 0, 0, 16, 0, 0, 0, 1, 0, 0, 0, 0, 0, 0, 0, 3, 0, 0, 0, 0, 118, 141, 232, 0],
    input := [], eof := true,
    stats := ⟨1, 1, 1, 24⟩ }

def c4State15 : ReaderState :=
  { leftover := [0, 0, 0, 2, 0, 0, 0, 0, 75, 237, 193, 79, 0, 0, 0, 16, 0, 0, 0, 1, 0, 0, 0, 0, 0, 0, 0, 3, 0, 0, 0, 0, 118, 141, 232, 0],
    input := [], eof := true,
    stats := ⟨1, 1, 1, 24⟩ }

def c4State16 : ReaderState :=
  { leftover := [0, 0, 2, 0, 0, 0, 0, 75, 237, 193, 79, 0, 0, 0, 16, 0, 0, 0, 1, 0, 0, 0, 0, 0, 0, 0, 3, 0, 0, 0, 0, 118, 141, 232, 0],
    input := [], eof := true,
    stats := ⟨1, 1, 1, 24⟩ }

def c4State17 : ReaderState :=
  { leftover := [0, 2, 0, 0, 0, 0, 75, 237, 193, 79, 0, 0, 0, 16, 0, 0, 0, 1, 0, 0, 0, 0, 0, 0, 0, 3, 0, 0, 0, 0, 118, 141, 232, 0],
    input := [], eof := true,
    stats := ⟨1, 1, 1, 24⟩ }

def c4State18 : ReaderState :=
  { leftover := [2, 0, 0, 0, 0, 75, 237, 193, 79, 0, 0, 0, 16, 0, 0, 0, 1, 0, 0, 0, 0, 0, 0, 0, 3, 0, 0, 0, 0, 118, 141, 232, 0],
    input := [], eof := true,
    stats := ⟨1, 1, 1, 24⟩ }

def c4State19 : ReaderState :=
  { leftover := [0, 0, 0, 0, 75, 237, 193, 79, 0, 0, 0, 16, 0, 0, 0, 1, 0, 0, 0, 0, 0, 0, 0, 3, 0, 0, 0, 0, 118, 141, 232, 0],
    input := [], eof := true,
    stats := ⟨1, 1, 1, 24⟩ }

def c4State20 : ReaderState :=
  { leftover := [0, 0, 0, 75, 237, 193, 79, 0, 0, 0, 16, 0, 0, 0, 1, 0, 0, 0, 0, 0, 0, 0, 3, 0, 0, 0, 0, 118, 141, 232, 0],
    input := [], eof := true,
    stats := ⟨1, 1, 1, 24⟩ }

def c4State21 : ReaderState :=
  { leftover := [0, 0, 75, 237, 193, 79, 0, 0, 0, 16, 0, 0, 0, 1, 0, 0, 0, 0, 0, 0, 0, 3, 0, 0, 0, 0, 118, 141, 232, 0],
    input := [], eof := true,
    stats := ⟨1, 1, 1, 24⟩ }

def c4State22 : ReaderState :=
  { leftover := [0, 75, 237, 193, 79, 0, 0, 0, 16, 0, 0, 0, 1, 0, 0, 0, 0, 0, 0, 0, 3, 0, 0, 0, 0, 118, 141, 232, 0],
    input := [], eof := true,
    stats := ⟨1, 1, 1, 24⟩ }

def c4State23 : ReaderState :=
  { leftover := [75, 237, 193, 79, 0, 0, 0, 16, 0, 0, 0, 1, 0, 0, 0, 0, 0, 0, 0, 3, 0, 0, 0, 0, 118, 141, 232, 0],
    input := [], eof := true,
    stats := ⟨1, 1, 1, 24⟩ }

def c4State24 : ReaderState :=
  { leftover := [237, 193, 79, 0, 0, 0, 16, 0, 0, 0, 1, 0, 0, 0, 0, 0, 0, 0, 3, 0, 0, 0, 0, 118, 141, 232, 0],
    input := [], eof := true,
    stats := ⟨1, 1, 1, 24⟩ }

def c4State25 : ReaderState :=
  { leftover := [193, 79, 0, 0, 0, 16, 0, 0, 0, 1, 0, 0, 0, 0, 0, 0, 0, 3, 0, 0, 0, 0, 118, 141, 232, 0],
    input := [], eof := true,
    stats := ⟨1, 1, 1, 24⟩ }

def c4State26 : ReaderState :=
  { leftover := [79, 0, 0, 0, 16, 0, 0, 0, 1, 0, 0, 0, 0, 0, 0, 0, 3, 0, 0, 0, 0, 118, 141, 232, 0],
    input := [], eof := true,
    stats := ⟨1, 1, 1, 24⟩ }

def c4State27 : ReaderState :=
  { leftover := [0, 0, 0, 16, 0, 0, 0, 1, 0, 0, 0, 0, 0, 0, 0, 3, 0, 0, 0, 0, 118, 141, 232, 0],
    input := [], eof := true,
    stats := ⟨1, 1, 1, 24⟩ }

def c4State28 : ReaderState :=
  { leftover := [],
    input := [], eof := true,
    stats := ⟨2, 1, 2, 48⟩ }

def c4State29 : ReaderState :=
  { leftover := [],
    input := [], eof := true,
    stats := ⟨2, 1, 2, 48⟩ }

/-! ## UDP wire codec and timing controller (`glos-core/src/replayer.rs`) -/

/-- Maximum UDP payload (standard IPv4). -/
def UDP_MAX_PAYLOAD : Nat := 65507

def UDP_TIMESTAMP_SIZE : Nat := 8

def UDP_SAMPLE_COUNT_SIZE : Nat := 2

/-- Size of the GLOS UDP packet header. -/
def UDP_HEADER_SIZE : Nat := UDP_TIMESTAMP_SIZE + UDP_SAMPLE_COUNT_SIZE

/-- `UdpPacket::encode` (the `Err(String)` payloads are dropped:
only which branch errors matters). -/
def UdpPacket.encode (block : IqBlock) : Except Unit (List Nat) :=
  let max_data := UDP_MAX_PAYLOAD - UDP_HEADER_SIZE
  if block.data.length > max_data then .error ()
  else if block.sample_count > 65535 then .error ()
  else .ok (toBEBytes 8 block.timestamp_ns ++ toBEBytes 2 block.sample_count ++
    block.data)

/-- `UdpPacket::decode`: `(timestamp_ns, sample_count, iq_data)`. -/
def UdpPacket.decode (buf : List Nat) : Except Unit (Nat × Nat × List Nat) :=
  if buf.length < UDP_HEADER_SIZE then .error ()
  else .ok (fromBEBytes (slice buf 0 8), fromBEBytes (slice buf 8 2),
    buf.drop UDP_HEADER_SIZE)

/-- `TimingController` (`replayer.rs`).  The `f64` speed is modelled as a
rational; `session_start : Instant` is wall-clock state not represented in
the pure model (`wait_for` sleeps are real time and are out of scope). -/
structure TimingController where
  speed : Rat
  file_start_ns : Option Nat
  paused : Bool
  deriving DecidableEq, Repr

/-- `TimingController::new`: the speed is clamped from below by
`speed.max(0.01)` (for finite `f64` inputs `max` is the numeric maximum;
the `0.01` literal is represented by the rational `1/100`).  Construction
never fails. -/
def TimingController.new (speed : Rat) (paused : Bool) : TimingController :=
  { speed := max speed (1 / 100), file_start_ns := none, paused }

/-- `ReplayError` (`glos-replayer/src/error.rs`), payloads dropped. -/
inductive ReplayError where
  | Config
  | Other
  deriving DecidableEq, Repr

/-- The speed validation performed by `ReplaySession::new`
(`glos-replayer/src/session.rs`): `config.speed <= 0.0` is rejected with a
configuration error before any controller is constructed. -/
def ReplaySession.checkSpeed (speed : Rat) : Except ReplayError Unit :=
  if speed ≤ 0 then .error .Config else .ok ()

/-! ## The capture producer (`glos-recorder/src/device.rs`) -/

/-- `RecorderMetrics` (`glos-recorder/src/metrics.rs`). -/
structure RecorderMetrics where
  samples_recorded : Nat
  blocks_written : Nat
  dropped_samples : Nat
  write_errors : Nat
  bytes_written : Nat
  deriving DecidableEq, Repr

/-- `IqChunk`. -/
structure IqChunk where
  timestamp_ns : Nat
  sample_count : Nat
  data : List Nat
  deriving DecidableEq, Repr

/-- A `crossbeam_channel::bounded` channel with no consumer attached:
`try_send` succeeds while the queue is below capacity and fails with
`TrySendError::Full` (modelled as `none`) otherwise. -/
structure BoundedChannel where
  capacity : Nat
  queue : List IqChunk
  deriving DecidableEq, Repr

def BoundedChannel.try_send (ch : BoundedChannel) (c : IqChunk) :
    Option BoundedChannel :=
  if ch.queue.length < ch.capacity then some { ch with queue := ch.queue ++ [c] }
  else none

/-- `SimulatedDevice` (the `tone_freq_hz : f32` field only feeds the
sample synthesis and is not represented). -/
structure SimulatedDevice where
  sample_rate_hz : Nat
  center_freq_hz : Nat
  gain_db_bits : Nat
  chunk_samples : Nat
  deriving DecidableEq, Repr

/-- `SimulatedDevice::new` (chunk size fixed at 4096 samples). -/
def SimulatedDevice.new (sample_rate_hz center_freq_hz gain_db_bits : Nat) :
    SimulatedDevice :=
  { sample_rate_hz, center_freq_hz, gain_db_bits, chunk_samples := 4096 }

/-- `k` iterations of the `SimulatedDevice::run` loop with no consumer
draining the channel.  The `f32` sine synthesis and the `f64` timestamp
arithmetic are abstracted by the parameters `genTs`/`genData` (iteration
index to timestamp/bytes); the backpressure behaviour does not depend on
them.  On `TrySendError::Full` the chunk is discarded and
`dropped_samples` grows by the chunk's `sample_count`; the loop never
blocks. -/
def deviceRunSteps (dev : SimulatedDevice) (genTs : Nat → Nat)
    (genData : Nat → List Nat) :
    Nat → BoundedChannel → RecorderMetrics → Nat →
      BoundedChannel × RecorderMetrics
  | 0, ch, m, _ => (ch, m)
  | k + 1, ch, m, i =>
    let chunk : IqChunk :=
      { timestamp_ns := genTs i, sample_count := dev.chunk_samples,
        data := genData i }
    match ch.try_send chunk with
    | some ch' => deviceRunSteps dev genTs genData k ch' m (i + 1)
    | none =>
      deviceRunSteps dev genTs genData k ch
        { m with dropped_samples := m.dropped_samples + chunk.sample_count }
        (i + 1)

/-! ## Pointwise buffer-surgery lemmas (single-byte corruption, byte
substitution) -/

/-- Whether a decode result is specifically a checksum-mismatch failure. -/
def resultIsCrcMismatch : Except GlosError GlosHeader → Bool
  | .error (.CrcMismatch _ _) => true
  | _ => false

/-! ## Byte-substitution header families (device-type tolerance and
format-byte precedence) -/

/-- A serialized header with the device-type byte replaced by `v` and the
checksum recomputed accordingly. -/
def headerBufWithSdr (h : GlosHeader) (v : Nat) : List Nat :=
  let body := h.bodyBytes.set 12 v
  body ++ toBEBytes 4 (crc32_checksum body) ++ List.replicate 52 0

/-- A serialized header with the sample-format byte replaced by `v` and an
arbitrary checksum field. -/
def headerBufWithIq (h : GlosHeader) (v : Nat) (crc4 : List Nat) : List Nat :=
  h.bodyBytes.set 13 v ++ crc4 ++ List.replicate 52 0

/-- A serialized header with the compression byte replaced by `v` and an
arbitrary checksum field. -/
def headerBufWithComp (h : GlosHeader) (v : Nat) (crc4 : List Nat) : List Nat :=
  h.bodyBytes.set 14 v ++ crc4 ++ List.replicate 52 0

/-! ## Byte-level integer codecs

`u32::to_be_bytes`, `u64::to_le_bytes`, … from the Rust standard library,
specialised to byte lists. -/

@[simp] theorem length_toBEBytes (w v : Nat) : (toBEBytes w v).length = w := by
  induction w generalizing v with
  | zero => rfl
  | succ w ih => simp [toBEBytes, ih]

@[simp] theorem length_toLEBytes (w v : Nat) : (toLEBytes w v).length = w := by
  induction w generalizing v with
  | zero => rfl
  | succ w ih => simp [toLEBytes, ih]

theorem fromBEBytes_append_singleton (l : List Nat) (b : Nat) :
    fromBEBytes (l ++ [b]) = 256 * fromBEBytes l + b := by
  simp [fromBEBytes, List.foldl_append, Nat.mul_comm]

theorem fromBEBytes_toBEBytes (w v : Nat) (h : v < 256 ^ w) :
    fromBEBytes (toBEBytes w v) = v := by
  induction w generalizing v with
  | zero => simp [Nat.pow_zero, Nat.lt_one_iff] at h; simp [h, toBEBytes, fromBEBytes]
  | succ w ih =>
    have hlt : v / 256 < 256 ^ w := by
      rw [Nat.div_lt_iff_lt_mul (by norm_num)]
      calc v < 256 ^ (w + 1) := h
        _ = 256 ^ w * 256 := by ring
    rw [toBEBytes, fromBEBytes_append_singleton, ih _ hlt]
    omega

theorem fromLEBytes_toLEBytes (w v : Nat) (h : v < 256 ^ w) :
    fromLEBytes (toLEBytes w v) = v := by
  induction w generalizing v with
  | zero => simp [Nat.pow_zero, Nat.lt_one_iff] at h; simp [h, toLEBytes, fromLEBytes]
  | succ w ih =>
    have hlt : v / 256 < 256 ^ w := by
      rw [Nat.div_lt_iff_lt_mul (by norm_num)]
      calc v < 256 ^ (w + 1) := h
        _ = 256 ^ w * 256 := by ring
    rw [toLEBytes, fromLEBytes, ih _ hlt]
    omega

theorem toBEBytes_lt (w v : Nat) : ∀ b ∈ toBEBytes w v, b < 256 := by
  induction w generalizing v with
  | zero => simp [toBEBytes]
  | succ w ih =>
    intro b hb
    simp only [toBEBytes, List.mem_append, List.mem_singleton] at hb
    rcases hb with hb | hb
    · exact ih _ b hb
    · omega

theorem toLEBytes_lt (w v : Nat) : ∀ b ∈ toLEBytes w v, b < 256 := by
  induction w generalizing v with
  | zero => simp [toLEBytes]
  | succ w ih =>
    intro b hb
    simp only [toLEBytes, List.mem_cons] at hb
    rcases hb with hb | hb
    · omega
    · exact ih _ b hb

/-! ## CRC32 (IEEE 802.3, as computed by `crc32fast`)

Reflected polynomial `0xEDB88320`, initial value `0xFFFFFFFF`, final
xor `0xFFFFFFFF` — the standard CRC-32 used by the `crc32fast` crate
(`crc32_checksum` in `format.rs`). -/

theorem xor_lt_two_pow {n a b : Nat} (ha : a < 2 ^ n) (hb : b < 2 ^ n) :
    a ^^^ b < 2 ^ n := Nat.xor_lt_two_pow ha hb

theorem crcRound_lt {c : Nat} (h : c < 2 ^ 32) : crcRound c < 2 ^ 32 := by
  have h1 : c >>> 1 < 2 ^ 32 := by
    rw [Nat.shiftRight_eq_div_pow]
    omega
  unfold crcRound
  split
  · exact xor_lt_two_pow h1 (by norm_num [CRC_POLY])
  · exact h1

theorem xor_right_cancel {a b c : Nat} (h : a ^^^ c = b ^^^ c) : a = b := by
  have := congrArg (· ^^^ c) h
  simpa [Nat.xor_assoc] using this

theorem xor_left_cancel {a b c : Nat} (h : c ^^^ a = c ^^^ b) : a = b := by
  have := congrArg (c ^^^ ·) h
  simpa [← Nat.xor_assoc] using this

theorem crcRound_inj {c c' : Nat} (hc : c < 2 ^ 32) (hc' : c' < 2 ^ 32)
    (h : crcRound c = crcRound c') : c = c' := by
  have hdiv : c >>> 1 = c / 2 := by simp [Nat.shiftRight_eq_div_pow]
  have hdiv' : c' >>> 1 = c' / 2 := by simp [Nat.shiftRight_eq_div_pow]
  have hmod : c &&& 1 = c % 2 := Nat.and_one_is_mod c
  have hmod' : c' &&& 1 = c' % 2 := Nat.and_one_is_mod c'
  have hb : c / 2 < 2 ^ 31 := by omega
  have hb' : c' / 2 < 2 ^ 31 := by omega
  unfold crcRound at h
  rw [hdiv, hdiv', hmod, hmod'] at h
  have hpoly : Nat.testBit CRC_POLY 31 = true := by decide
  by_cases h1 : c % 2 = 1 <;> by_cases h2 : c' % 2 = 1
  · rw [if_pos h1, if_pos h2] at h
    have := xor_right_cancel h
    omega
  · rw [if_pos h1, if_neg h2] at h
    exfalso
    have hbit := congrArg (Nat.testBit · 31) h
    simp [Nat.testBit_xor, Nat.testBit_lt_two_pow hb,
      Nat.testBit_lt_two_pow hb', hpoly] at hbit
  · rw [if_neg h1, if_pos h2] at h
    exfalso
    have hbit := congrArg (Nat.testBit · 31) h
    simp [Nat.testBit_xor, Nat.testBit_lt_two_pow hb,
      Nat.testBit_lt_two_pow hb', hpoly] at hbit
  · rw [if_neg h1, if_neg h2] at h
    omega

theorem crcRounds_lt {c : Nat} (n : Nat) (h : c < 2 ^ 32) :
    crcRounds n c < 2 ^ 32 := by
  induction n generalizing c with
  | zero => exact h
  | succ n ih => exact ih (crcRound_lt h)

theorem crcRounds_inj {c c' : Nat} (n : Nat) (hc : c < 2 ^ 32) (hc' : c' < 2 ^ 32)
    (h : crcRounds n c = crcRounds n c') : c = c' := by
  induction n generalizing c c' with
  | zero => exact h
  | succ n ih =>
    exact crcRound_inj hc hc' (ih (crcRound_lt hc) (crcRound_lt hc') h)

theorem crcByte_lt {c v : Nat} (hc : c < 2 ^ 32) (hv : v < 256) :
    crcByte c v < 2 ^ 32 :=
  crcRounds_lt 8 (xor_lt_two_pow hc (by omega))

theorem crcByte_inj_state {c c' v : Nat} (hc : c < 2 ^ 32) (hc' : c' < 2 ^ 32)
    (hv : v < 256) (h : crcByte c v = crcByte c' v) : c = c' := by
  have hx : c ^^^ v = c' ^^^ v :=
    crcRounds_inj 8 (xor_lt_two_pow hc (by omega)) (xor_lt_two_pow hc' (by omega)) h
  exact xor_right_cancel hx

theorem crcByte_ne_byte {c v v' : Nat} (hc : c < 2 ^ 32) (hv : v < 256)
    (hv' : v' < 256) (hne : v ≠ v') : crcByte c v ≠ crcByte c v' := by
  intro h
  have hx : c ^^^ v = c ^^^ v' :=
    crcRounds_inj 8 (xor_lt_two_pow hc (by omega)) (xor_lt_two_pow hc (by omega)) h
  exact hne (xor_left_cancel hx)

theorem foldl_crcByte_lt {l : List Nat} (hl : allBytes l) :
    ∀ {c : Nat}, c < 2 ^ 32 → l.foldl crcByte c < 2 ^ 32 := by
  induction l with
  | nil => intro c hc; exact hc
  | cons b t ih =>
    intro c hc
    have hb : b < 256 := hl b (List.mem_cons_self b t)
    have ht : allBytes t := fun x hx => hl x (List.mem_cons_of_mem b hx)
    exact ih ht (crcByte_lt hc hb)

theorem foldl_crcByte_ne {l : List Nat} (hl : allBytes l) :
    ∀ {c c' : Nat}, c < 2 ^ 32 → c' < 2 ^ 32 → c ≠ c' →
      l.foldl crcByte c ≠ l.foldl crcByte c' := by
  induction l with
  | nil => intro c c' _ _ hne; exact hne
  | cons b t ih =>
    intro c c' hc hc' hne
    have hb : b < 256 := hl b (List.mem_cons_self b t)
    have ht : allBytes t := fun x hx => hl x (List.mem_cons_of_mem b hx)
    simp only [List.foldl_cons]
    exact ih ht (crcByte_lt hc hb) (crcByte_lt hc' hb)
      (fun h => hne (crcByte_inj_state hc hc' hb h))

theorem foldl_flipAt_ne {l : List Nat} (hl : allBytes l) :
    ∀ {p : Nat}, p < l.length → ∀ {c : Nat}, c < 2 ^ 32 →
      (flipAt l p).foldl crcByte c ≠ l.foldl crcByte c := by
  induction l with
  | nil => intro p hp; simp at hp
  | cons b t ih =>
    intro p hp c hc
    have hb : b < 256 := hl b (List.mem_cons_self b t)
    have ht : allBytes t := fun x hx => hl x (List.mem_cons_of_mem b hx)
    cases p with
    | zero =>
      simp only [flipAt, List.set_cons_zero, List.getD_cons_zero, List.foldl_cons]
      have hflip : b ^^^ 255 ≠ b := by
        intro hcontra
        have h0 := congrArg (Nat.testBit · 0) hcontra
        simp [Nat.testBit_xor, show Nat.testBit 255 0 = true from by decide] at h0
        omega
      have hflip_lt : b ^^^ 255 < 256 := xor_lt_two_pow (n := 8) hb (by norm_num)
      exact foldl_crcByte_ne ht (crcByte_lt hc hflip_lt) (crcByte_lt hc hb)
        (crcByte_ne_byte hc hflip_lt hb hflip)
    | succ q =>
      simp only [List.length_cons, Nat.succ_lt_succ_iff] at hp
      simp only [flipAt, List.set_cons_succ, List.getD_cons_succ, List.foldl_cons]
      exact ih ht hp (crcByte_lt hc hb)

theorem crc32_flipAt_ne {l : List Nat} (hl : allBytes l) {p : Nat}
    (hp : p < l.length) : crc32_checksum (flipAt l p) ≠ crc32_checksum l := by
  unfold crc32_checksum
  intro h
  exact foldl_flipAt_ne hl hp (by norm_num) (xor_right_cancel h)

/-! ## Format data model (`glos-core/src/format.rs`) -/

@[simp] theorem length_writeInt (is_le : Bool) (w v : Nat) :
    (writeInt is_le w v).length = w := by
  cases is_le <;> simp [writeInt]

theorem readInt_writeInt (is_le : Bool) (w v : Nat) (h : v < 256 ^ w) :
    readInt is_le (writeInt is_le w v) = v := by
  cases is_le <;>
    simp [writeInt, readInt, fromBEBytes_toBEBytes w v h, fromLEBytes_toLEBytes w v h]

theorem writeInt_lt (is_le : Bool) (w v : Nat) : ∀ b ∈ writeInt is_le w v, b < 256 := by
  cases is_le <;> simp only [writeInt, if_pos, if_neg, Bool.false_eq_true,
    not_false_iff, ite_true, ite_false]
  · exact toBEBytes_lt w v
  · exact toLEBytes_lt w v

/-! ### Layout facts about the serialized header -/

theorem allBytes_append {l1 l2 : List Nat} :
    allBytes (l1 ++ l2) ↔ allBytes l1 ∧ allBytes l2 := by
  unfold allBytes
  exact List.forall_mem_append

theorem sdrType_as_u8_lt (s : SdrType) : s.as_u8 < 256 := by
  cases s <;> simp [SdrType.as_u8]

theorem iqFormat_as_u8_lt (f : IqFormat) : f.as_u8 < 256 := by
  cases f <;> simp [IqFormat.as_u8]

theorem compression_as_u8_lt (c : Compression) : c.as_u8 < 256 := by
  cases c <;> simp [Compression.as_u8]

theorem sdrType_from_u8_as_u8 (s : SdrType) : SdrType.from_u8 s.as_u8 = s := by
  cases s <;> rfl

theorem iqFormat_from_u8_as_u8 (f : IqFormat) : IqFormat.from_u8 f.as_u8 = .ok f := by
  cases f <;> rfl

theorem compression_from_u8_as_u8 (c : Compression) :
    Compression.from_u8 c.as_u8 = .ok c := by
  cases c <;> rfl

theorem length_bodyBytes (h : GlosHeader) : h.bodyBytes.length = 72 := by
  simp [GlosHeader.bodyBytes, GLOS_MAGIC]

theorem length_serialize (h : GlosHeader) : h.serialize.length = 128 := by
  simp [GlosHeader.serialize, length_bodyBytes]

theorem allBytes_bodyBytes {h : GlosHeader} (hwf : h.WF) : allBytes h.bodyBytes := by
  have hv1 : h.version = 1 := by simpa [GLOS_VERSION] using hwf.1
  have hf : h.flags < 256 := hwf.2.1
  rw [GlosHeader.bodyBytes]
  simp only [allBytes_append]
  repeat' apply And.intro
  all_goals intro b hb
  all_goals first
    | exact writeInt_lt _ _ _ b hb
    | (simp only [GLOS_MAGIC, List.mem_cons, List.mem_singleton,
        List.not_mem_nil, or_false, List.mem_replicate] at hb
       omega)
    | (rw [List.mem_singleton] at hb
       subst hb
       first
         | exact sdrType_as_u8_lt _
         | exact iqFormat_as_u8_lt _
         | exact compression_as_u8_lt _)

theorem crc32_lt {l : List Nat} (hl : allBytes l) : crc32_checksum l < 2 ^ 32 :=
  xor_lt_two_pow (foldl_crcByte_lt hl (by norm_num)) (by norm_num)

/-- Slices of the serialized header inside `[0..72)` live in the body. -/
theorem slice_serialize_body (h : GlosHeader) (off n : Nat) (hn : off + n ≤ 72) :
    slice h.serialize off n = slice h.bodyBytes off n := by
  unfold GlosHeader.serialize slice
  rw [List.append_assoc, List.drop_append_eq_append_drop,
    List.take_append_eq_append_take]
  have h0 : n - (h.bodyBytes.drop off).length = 0 := by
    rw [List.length_drop, length_bodyBytes]
    omega
  rw [h0]
  simp

theorem byteAt_serialize_body (h : GlosHeader) (i : Nat) (hi : i < 72) :
    byteAt h.serialize i = byteAt h.bodyBytes i := by
  unfold GlosHeader.serialize byteAt
  rw [List.append_assoc, List.getD_eq_getElem?_getD, List.getElem?_append_left
    (by rw [length_bodyBytes]; omega), ← List.getD_eq_getElem?_getD]

theorem serialize_magic (h : GlosHeader) : slice h.serialize 0 4 = GLOS_MAGIC := by
  rw [slice_serialize_body h 0 4 (by omega)]
  rfl

theorem serialize_byte4 (h : GlosHeader) : byteAt h.serialize 4 = h.version := by
  rw [byteAt_serialize_body h 4 (by omega)]; rfl

theorem serialize_byte5 (h : GlosHeader) : byteAt h.serialize 5 = h.flags := by
  rw [byteAt_serialize_body h 5 (by omega)]; rfl

theorem serialize_byte12 (h : GlosHeader) :
    byteAt h.serialize 12 = h.sdr_type.as_u8 := by
  rw [byteAt_serialize_body h 12 (by omega)]; rfl

theorem serialize_byte13 (h : GlosHeader) :
    byteAt h.serialize 13 = h.iq_format.as_u8 := by
  rw [byteAt_serialize_body h 13 (by omega)]; rfl

theorem serialize_byte14 (h : GlosHeader) :
    byteAt h.serialize 14 = h.compression.as_u8 := by
  rw [byteAt_serialize_body h 14 (by omega)]; rfl

theorem serialize_field16 (h : GlosHeader) :
    slice h.serialize 16 4 = writeInt (h.flags &&& 1 == 1) 4 h.sample_rate := by
  rw [slice_serialize_body h 16 4 (by omega)]
  simp [GlosHeader.bodyBytes, slice, GLOS_MAGIC,
    List.drop_append_eq_append_drop, List.take_append_eq_append_take,
    List.take_of_length_le, List.drop_eq_nil_of_le]

theorem serialize_field20 (h : GlosHeader) :
    slice h.serialize 20 8 = writeInt (h.flags &&& 1 == 1) 8 h.center_freq := by
  rw [slice_serialize_body h 20 8 (by omega)]
  simp [GlosHeader.bodyBytes, slice, GLOS_MAGIC,
    List.drop_append_eq_append_drop, List.take_append_eq_append_take,
    List.take_of_length_le, List.drop_eq_nil_of_le]

theorem serialize_field28 (h : GlosHeader) :
    slice h.serialize 28 4 = writeInt (h.flags &&& 1 == 1) 4 h.gain_db_bits := by
  rw [slice_serialize_body h 28 4 (by omega)]
  simp [GlosHeader.bodyBytes, slice, GLOS_MAGIC,
    List.drop_append_eq_append_drop, List.take_append_eq_append_take,
    List.take_of_length_le, List.drop_eq_nil_of_le]

theorem serialize_field32 (h : GlosHeader) :
    slice h.serialize 32 8 = writeInt (h.flags &&& 1 == 1) 8 h.timestamp_start := by
  rw [slice_serialize_body h 32 8 (by omega)]
  simp [GlosHeader.bodyBytes, slice, GLOS_MAGIC,
    List.drop_append_eq_append_drop, List.take_append_eq_append_take,
    List.take_of_length_le, List.drop_eq_nil_of_le]

theorem serialize_field40 (h : GlosHeader) :
    slice h.serialize 40 8 = writeInt (h.flags &&& 1 == 1) 8 h.timestamp_end := by
  rw [slice_serialize_body h 40 8 (by omega)]
  simp [GlosHeader.bodyBytes, slice, GLOS_MAGIC,
    List.drop_append_eq_append_drop, List.take_append_eq_append_take,
    List.take_of_length_le, List.drop_eq_nil_of_le]

theorem serialize_field48 (h : GlosHeader) :
    slice h.serialize 48 8 = writeInt (h.flags &&& 1 == 1) 8 h.total_samples := by
  rw [slice_serialize_body h 48 8 (by omega)]
  simp [GlosHeader.bodyBytes, slice, GLOS_MAGIC,
    List.drop_append_eq_append_drop, List.take_append_eq_append_take,
    List.take_of_length_le, List.drop_eq_nil_of_le]

theorem serialize_body72 (h : GlosHeader) : slice h.serialize 0 72 = h.bodyBytes := by
  rw [slice_serialize_body h 0 72 (by omega)]
  simp [slice, List.take_of_length_le, length_bodyBytes]

theorem serialize_crc_field (h : GlosHeader) :
    slice h.serialize 72 4 = toBEBytes 4 (crc32_checksum h.bodyBytes) := by
  unfold GlosHeader.serialize slice
  rw [List.append_assoc, List.drop_append_eq_append_drop]
  simp [length_bodyBytes, List.drop_eq_nil_of_le,
    List.take_append_eq_append_take, List.take_of_length_le]

theorem pow256_4 : (256 : Nat) ^ 4 = 2 ^ 32 := by norm_num

theorem pow256_8 : (256 : Nat) ^ 8 = 2 ^ 64 := by norm_num

/-! ### Generic evaluation lemmas for `deserialize`

Stated over an opaque buffer whose accessed bytes are constrained by
hypotheses; instantiated with the layout facts above. -/

theorem deserialize_ok_of (buf : List Nat) (ver fl sdrB : Nat) (iqf : IqFormat)
    (cmp : Compression) (sr cf gb ts te tot : Nat)
    (emagic : slice buf 0 4 = GLOS_MAGIC)
    (ever : byteAt buf 4 = ver) (hv : ver = GLOS_VERSION)
    (eflags : byteAt buf 5 = fl)
    (esdr : byteAt buf 12 = sdrB)
    (eiq : byteAt buf 13 = iqf.as_u8)
    (ecomp : byteAt buf 14 = cmp.as_u8)
    (e16 : slice buf 16 4 = writeInt (fl &&& 1 == 1) 4 sr) (hsr : sr < 2 ^ 32)
    (e20 : slice buf 20 8 = writeInt (fl &&& 1 == 1) 8 cf) (hcf : cf < 2 ^ 64)
    (e28 : slice buf 28 4 = writeInt (fl &&& 1 == 1) 4 gb) (hgb : gb < 2 ^ 32)
    (e32 : slice buf 32 8 = writeInt (fl &&& 1 == 1) 8 ts) (hts : ts < 2 ^ 64)
    (e40 : slice buf 40 8 = writeInt (fl &&& 1 == 1) 8 te) (hte : te < 2 ^ 64)
    (e48 : slice buf 48 8 = writeInt (fl &&& 1 == 1) 8 tot) (htot : tot < 2 ^ 64)
    (ecrc : fromBEBytes (slice buf 72 4) = crc32_checksum (slice buf 0 72)) :
    GlosHeader.deserialize buf =
      .ok { version := ver, flags := fl, sdr_type := SdrType.from_u8 sdrB,
            iq_format := iqf, compression := cmp, sample_rate := sr,
            center_freq := cf, gain_db_bits := gb, timestamp_start := ts,
            timestamp_end := te, total_samples := tot } := by
  simp only [GlosHeader.deserialize, emagic, ever, hv, eflags, esdr, eiq, ecomp,
    e16, e20, e28, e32, e40, e48, ecrc,
    iqFormat_from_u8_as_u8, compression_from_u8_as_u8,
    readInt_writeInt _ 4 sr (pow256_4 ▸ hsr),
    readInt_writeInt _ 8 cf (pow256_8 ▸ hcf),
    readInt_writeInt _ 4 gb (pow256_4 ▸ hgb),
    readInt_writeInt _ 8 ts (pow256_8 ▸ hts),
    readInt_writeInt _ 8 te (pow256_8 ▸ hte),
    readInt_writeInt _ 8 tot (pow256_8 ▸ htot),
    ne_eq, not_true_eq_false, ite_false, if_false, not_false_eq_true, ite_true]

theorem deserialize_invalidMagic (buf : List Nat)
    (hmagic : slice buf 0 4 ≠ GLOS_MAGIC) :
    GlosHeader.deserialize buf = .error .InvalidMagic := by
  simp only [GlosHeader.deserialize, if_pos hmagic]

theorem deserialize_badVersion (buf : List Nat)
    (emagic : slice buf 0 4 = GLOS_MAGIC)
    (hver : byteAt buf 4 ≠ GLOS_VERSION) :
    GlosHeader.deserialize buf =
      .error (.UnsupportedVersion (byteAt buf 4) GLOS_VERSION) := by
  simp only [GlosHeader.deserialize, emagic, ne_eq, not_true_eq_false, ite_false,
    if_neg, if_pos hver, not_false_eq_true, ite_true]

theorem IqFormat.from_u8_ge3 (v : Nat) (h3 : 3 ≤ v) :
    IqFormat.from_u8 v = .error .FormatViolation := by
  unfold IqFormat.from_u8
  match v, h3 with
  | n + 3, _ => rfl

theorem Compression.from_u8_ge2 (v : Nat) (h2 : 2 ≤ v) :
    Compression.from_u8 v = .error .FormatViolation := by
  unfold Compression.from_u8
  match v, h2 with
  | n + 2, _ => rfl

/-- An out-of-range sample-format byte fails with `FormatViolation`, with
no hypothesis at all about the checksum bytes: the rejection precedes the
CRC comparison. -/
theorem deserialize_badIqFormat (buf : List Nat)
    (emagic : slice buf 0 4 = GLOS_MAGIC)
    (ever : byteAt buf 4 = GLOS_VERSION)
    (hiq : 3 ≤ byteAt buf 13) :
    GlosHeader.deserialize buf = .error .FormatViolation := by
  simp only [GlosHeader.deserialize, emagic, ever, IqFormat.from_u8_ge3 _ hiq,
    ne_eq, not_true_eq_false, ite_false, if_false]

/-- An out-of-range compression byte fails with `FormatViolation`, again
independently of the checksum bytes. -/
theorem deserialize_badCompression (buf : List Nat) (iqf : IqFormat)
    (emagic : slice buf 0 4 = GLOS_MAGIC)
    (ever : byteAt buf 4 = GLOS_VERSION)
    (eiq : byteAt buf 13 = iqf.as_u8)
    (hcomp : 2 ≤ byteAt buf 14) :
    GlosHeader.deserialize buf = .error .FormatViolation := by
  simp only [GlosHeader.deserialize, emagic, ever, eiq, iqFormat_from_u8_as_u8,
    Compression.from_u8_ge2 _ hcomp, ne_eq, not_true_eq_false, ite_false,
    if_false]

/-- A stored/recomputed CRC disagreement yields `CrcMismatch` whenever the
structural checks in front of it pass. -/
theorem deserialize_crcMismatch (buf : List Nat) (iqf : IqFormat)
    (cmp : Compression)
    (emagic : slice buf 0 4 = GLOS_MAGIC)
    (ever : byteAt buf 4 = GLOS_VERSION)
    (eiq : byteAt buf 13 = iqf.as_u8)
    (ecomp : byteAt buf 14 = cmp.as_u8)
    (hne : fromBEBytes (slice buf 72 4) ≠ crc32_checksum (slice buf 0 72)) :
    GlosHeader.deserialize buf =
      .error (.CrcMismatch (crc32_checksum (slice buf 0 72))
        (fromBEBytes (slice buf 72 4))) := by
  simp only [GlosHeader.deserialize, emagic, ever, eiq, ecomp,
    iqFormat_from_u8_as_u8, compression_from_u8_as_u8, ne_eq,
    not_true_eq_false, ite_false, if_pos hne]

theorem header_deserialize_serialize {h : GlosHeader} (hwf : h.WF) :
    GlosHeader.deserialize h.serialize = .ok h := by
  obtain ⟨hv, hf, hsr, hcf, hgb, hts, hte, htot⟩ := hwf
  have hcrc : crc32_checksum h.bodyBytes < 256 ^ 4 := by
    rw [pow256_4]
    exact crc32_lt (allBytes_bodyBytes ⟨hv, hf, hsr, hcf, hgb, hts, hte, htot⟩)
  have hspec := deserialize_ok_of h.serialize h.version h.flags h.sdr_type.as_u8
    h.iq_format h.compression h.sample_rate h.center_freq h.gain_db_bits
    h.timestamp_start h.timestamp_end h.total_samples
    (serialize_magic h) (serialize_byte4 h) hv (serialize_byte5 h)
    (serialize_byte12 h) (serialize_byte13 h) (serialize_byte14 h)
    (serialize_field16 h) hsr (serialize_field20 h) hcf
    (serialize_field28 h) hgb (serialize_field32 h) hts
    (serialize_field40 h) hte (serialize_field48 h) htot
    (by rw [serialize_crc_field, serialize_body72, fromBEBytes_toBEBytes 4 _ hcrc])
  rw [hspec, sdrType_from_u8_as_u8]

/-- Inversion: whatever buffer `deserialize` accepts, every field of the
returned header was read with the endianness selected by bit 0 of the
flags byte, and the stored big-endian checksum field necessarily equals
the CRC32 recomputed over `buf[0..72)`. -/
theorem deserialize_ok_inv {buf : List Nat} {h' : GlosHeader}
    (hok : GlosHeader.deserialize buf = .ok h') :
    h'.version = byteAt buf 4 ∧ h'.flags = byteAt buf 5 ∧
    h'.sdr_type = SdrType.from_u8 (byteAt buf 12) ∧
    IqFormat.from_u8 (byteAt buf 13) = .ok h'.iq_format ∧
    Compression.from_u8 (byteAt buf 14) = .ok h'.compression ∧
    h'.sample_rate = readInt (byteAt buf 5 &&& 1 == 1) (slice buf 16 4) ∧
    h'.center_freq = readInt (byteAt buf 5 &&& 1 == 1) (slice buf 20 8) ∧
    h'.gain_db_bits = readInt (byteAt buf 5 &&& 1 == 1) (slice buf 28 4) ∧
    h'.timestamp_start = readInt (byteAt buf 5 &&& 1 == 1) (slice buf 32 8) ∧
    h'.timestamp_end = readInt (byteAt buf 5 &&& 1 == 1) (slice buf 40 8) ∧
    h'.total_samples = readInt (byteAt buf 5 &&& 1 == 1) (slice buf 48 8) ∧
    fromBEBytes (slice buf 72 4) = crc32_checksum (slice buf 0 72) := by
  simp only [GlosHeader.deserialize] at hok
  split at hok
  · exact absurd hok (by simp)
  split at hok
  · exact absurd hok (by simp)
  split at hok
  · exact absurd hok (by simp)
  case _ iqf hiq =>
  split at hok
  · exact absurd hok (by simp)
  case _ cmp hcmp =>
  split at hok
  · exact absurd hok (by simp)
  case _ hcrc =>
  rw [Except.ok.injEq] at hok
  subst hok
  refine ⟨rfl, rfl, rfl, by rw [hiq], by rw [hcmp], rfl, rfl, rfl, rfl, rfl, rfl,
    ?_⟩
  exact Decidable.not_not.mp hcrc

/-! ### Layout facts about serialized blocks -/

theorem length_payloadBytes (b : IqBlock) :
    b.payloadBytes.length = 12 + b.data.length := by
  simp [IqBlock.payloadBytes]
  omega

theorem allBytes_payloadBytes {b : IqBlock} (hd : allBytes b.data) :
    allBytes b.payloadBytes := by
  rw [IqBlock.payloadBytes]
  simp only [allBytes_append]
  exact ⟨⟨toBEBytes_lt 4 _, toBEBytes_lt 8 _⟩, hd⟩

/-- Generic evaluation of `IqBlock.deserialize` on a well-framed buffer. -/
theorem block_deserialize_ok_of (buf : List Nat) (cnt ts : Nat)
    (data : List Nat) (cmp : Compression)
    (hlen : buf.length = 20 + data.length)
    (hclen : 12 + data.length < 2 ^ 32)
    (e0 : slice buf 0 4 = toBEBytes 4 (12 + data.length))
    (e4 : slice buf 4 4 = toBEBytes 4 cnt) (hcnt : cnt < 2 ^ 32)
    (e8 : slice buf 8 8 = toBEBytes 8 ts) (hts : ts < 2 ^ 64)
    (e16 : slice buf 16 (data.length) = data)
    (ecrc : fromBEBytes (slice buf (4 + (12 + data.length)) 4) =
      crc32_checksum (slice buf 4 (12 + data.length))) :
    IqBlock.deserialize buf cmp =
      .ok ({ timestamp_ns := ts, sample_count := cnt, data := data,
             is_compressed := cmp == .Lz4 }, 20 + data.length) := by
  have h12 : (12 : Nat) + data.length - 12 = data.length := by omega
  simp only [IqBlock.deserialize, hlen, e0, e4, e8,
    fromBEBytes_toBEBytes 4 _ (pow256_4 ▸ hclen),
    fromBEBytes_toBEBytes 4 _ (pow256_4 ▸ hcnt),
    fromBEBytes_toBEBytes 8 _ (pow256_8 ▸ hts), h12, e16, ecrc, ne_eq,
    not_true_eq_false, ite_false, if_false]
  rw [if_neg (by omega), if_neg (by omega), if_neg (by omega)]
  have : (4 : Nat) + (12 + data.length) + 4 = 20 + data.length := by omega
  rw [this]

theorem serialize_eq_blockShape (b : IqBlock)
    (hsize : ¬ 4 + 4 + 8 + b.data.length + 4 > GLOS_MAX_BLOCK_SIZE) :
    b.serialize = .ok (blockShape ((4 + 8 + b.data.length) % 2 ^ 32)
      b.sample_count b.timestamp_ns (crc32_checksum b.payloadBytes) b.data) := by
  rw [IqBlock.serialize, if_neg hsize, blockShape, IqBlock.payloadBytes]

theorem length_blockShape (c cnt ts k : Nat) (data : List Nat) :
    (blockShape c cnt ts k data).length = 20 + data.length := by
  simp [blockShape]
  omega

theorem blockShape_slice0 (c cnt ts k : Nat) (data : List Nat) :
    slice (blockShape c cnt ts k data) 0 4 = toBEBytes 4 c := by
  simp [blockShape, slice, List.take_append_eq_append_take, List.take_of_length_le]

theorem blockShape_slice4 (c cnt ts k : Nat) (data : List Nat) :
    slice (blockShape c cnt ts k data) 4 4 = toBEBytes 4 cnt := by
  simp [blockShape, slice, List.append_assoc, List.drop_append_eq_append_drop,
    List.drop_eq_nil_of_le, List.take_append_eq_append_take,
    List.take_of_length_le]

theorem blockShape_slice8 (c cnt ts k : Nat) (data : List Nat) :
    slice (blockShape c cnt ts k data) 8 8 = toBEBytes 8 ts := by
  simp [blockShape, slice, List.append_assoc, List.drop_append_eq_append_drop,
    List.drop_eq_nil_of_le, List.take_append_eq_append_take,
    List.take_of_length_le]

theorem blockShape_slice16 (c cnt ts k n : Nat) (data : List Nat)
    (hn : n = data.length) :
    slice (blockShape c cnt ts k data) 16 n = data := by
  subst hn
  simp [blockShape, slice, List.append_assoc, List.drop_append_eq_append_drop,
    List.drop_eq_nil_of_le, List.take_append_eq_append_take,
    List.take_of_length_le]

theorem blockShape_payload (c cnt ts k n : Nat) (data : List Nat)
    (hn : n = 12 + data.length) :
    slice (blockShape c cnt ts k data) 4 n =
      toBEBytes 4 cnt ++ toBEBytes 8 ts ++ data := by
  subst hn
  unfold blockShape slice
  rw [List.append_assoc (toBEBytes 4 c), List.drop_left' (by simp),
    List.take_left' (by simp; omega)]

theorem blockShape_crc (c cnt ts k n : Nat) (data : List Nat)
    (hn : n = 16 + data.length) :
    slice (blockShape c cnt ts k data) n 4 = toBEBytes 4 k := by
  subst hn
  unfold blockShape slice
  rw [List.drop_left' (by simp; omega), List.take_of_length_le (by simp)]

/-- Round trip for blocks within the framed-size bound: decoding the
encoding recovers the data, count and timestamp, consuming the whole
buffer; `is_compressed` comes from the passed-in mode. -/
theorem block_deserialize_serialize {b : IqBlock} (hwf : b.WF)
    (hsize : ¬ 4 + 4 + 8 + b.data.length + 4 > GLOS_MAX_BLOCK_SIZE)
    (cmp : Compression) :
    ∀ out, b.serialize = .ok out →
      IqBlock.deserialize out cmp =
        .ok ({ timestamp_ns := b.timestamp_ns, sample_count := b.sample_count,
               data := b.data, is_compressed := cmp == .Lz4 }, out.length) := by
  obtain ⟨hts, hcnt, hdata⟩ := hwf
  have hlen : b.data.length ≤ 1048556 := by
    simp [GLOS_MAX_BLOCK_SIZE] at hsize
    omega
  have hmod : (4 + 8 + b.data.length) % 2 ^ 32 = 12 + b.data.length := by
    rw [Nat.mod_eq_of_lt (by omega)]
  intro out hout
  rw [serialize_eq_blockShape b hsize, hmod] at hout
  obtain rfl : out = _ := (Except.ok.injEq _ _).mp hout.symm
  have hcrc_lt : crc32_checksum b.payloadBytes < 2 ^ 32 :=
    crc32_lt (allBytes_payloadBytes hdata)
  rw [length_blockShape]
  exact block_deserialize_ok_of _ b.sample_count b.timestamp_ns b.data cmp
    (length_blockShape _ _ _ _ _) (by omega)
    (blockShape_slice0 _ _ _ _ _)
    (blockShape_slice4 _ _ _ _ _) hcnt
    (blockShape_slice8 _ _ _ _ _) hts
    (blockShape_slice16 _ _ _ _ _ _ rfl)
    (by rw [blockShape_crc _ _ _ _ _ _ (by omega),
          blockShape_payload _ _ _ _ _ _ rfl,
          fromBEBytes_toBEBytes 4 _ (pow256_4 ▸ hcrc_lt), IqBlock.payloadBytes])

/-! ### Stepping lemmas for the reader loop -/

theorem crc32_eq_crcFold (l : List Nat) :
    crc32_checksum l = crcFold 0xFFFFFFFF l ^^^ 0xFFFFFFFF := rfl

theorem crcFold_append (c : Nat) (l1 l2 : List Nat) :
    crcFold c (l1 ++ l2) = crcFold (crcFold c l1) l2 := by
  simp [crcFold, List.foldl_append]

/-- One pass of the `next_block` loop determines the result at any fuel. -/
theorem nextBlockFuel_succ (L : List Nat → Option (List Nat)) (c : Compression)
    (f : IqFormat) (fuel : Nat) (s : ReaderState) :
    nextBlockFuel L c f (fuel + 1) s =
      match nextBlockFuel L c f 1 s with
      | (.fuelOut, s₁) => nextBlockFuel L c f fuel s₁
      | r => r := by
  simp only [nextBlockFuel, readerRefill]
  repeat' split
  all_goals first | rfl | simp_all

theorem nextBlockFuel_step (L : List Nat → Option (List Nat)) (c : Compression)
    (f : IqFormat) (fuel : Nat) (s s₁ : ReaderState)
    (h : nextBlockFuel L c f 1 s = (.fuelOut, s₁)) :
    nextBlockFuel L c f (fuel + 1) s = nextBlockFuel L c f fuel s₁ := by
  rw [nextBlockFuel_succ, h]

theorem nextBlockFuel_yield (L : List Nat → Option (List Nat)) (c : Compression)
    (f : IqFormat) (fuel : Nat) (s s₁ : ReaderState)
    {r : Except GlosError IqBlock}
    (h : nextBlockFuel L c f 1 s = (.yield r, s₁)) :
    nextBlockFuel L c f (fuel + 1) s = (.yield r, s₁) := by
  rw [nextBlockFuel_succ, h]

theorem nextBlockFuel_done (L : List Nat → Option (List Nat)) (c : Compression)
    (f : IqFormat) (fuel : Nat) (s s₁ : ReaderState)
    (h : nextBlockFuel L c f 1 s = (.done, s₁)) :
    nextBlockFuel L c f (fuel + 1) s = (.done, s₁) := by
  rw [nextBlockFuel_succ, h]

theorem runReader_yield_ok (L : List Nat → Option (List Nat)) (c : Compression)
    (f : IqFormat) (fuel : Nat) (s s' : ReaderState) (b : IqBlock)
    (h : nextBlockFuel L c f (fuel + 1) s = (.yield (.ok b), s')) :
    runReader L c f (fuel + 1) s =
      (b :: (runReader L c f fuel s').1, (runReader L c f fuel s').2) := by
  simp only [runReader, h]

theorem runReader_done (L : List Nat → Option (List Nat)) (c : Compression)
    (f : IqFormat) (fuel : Nat) (s s' : ReaderState)
    (h : nextBlockFuel L c f (fuel + 1) s = (.done, s')) :
    runReader L c f (fuel + 1) s = ([], s', true) := by
  simp only [runReader, h]

/-! ### Concrete three-block corruption scenario (claim C4)

The stream is a valid header followed by three one-sample blocks in
which the last byte of the middle block's trailing checksum is flipped.
The intermediate reader states and the step lemmas below replay the
byte-at-a-time resynchronization scan explicitly. -/

theorem c4crcChunk1 : crcFold 4294967295 [71, 76, 79, 83, 1, 0, 0, 0, 0, 0, 0, 0, 0, 1, 0, 0, 0, 30, 132, 128, 0, 0, 0, 0] = 1003815080 := by
  set_option maxRecDepth 4000 in decide

theorem c4crcChunk2 : crcFold 1003815080 [95, 124, 148, 128, 0, 0, 0, 0, 0, 0, 0, 0, 0, 0, 0, 0, 0, 0, 0, 0, 0, 0, 0, 0] = 2959978171 := by
  set_option maxRecDepth 4000 in decide

theorem c4crcChunk3 : crcFold 2959978171 [0, 0, 0, 0, 0, 0, 0, 0, 0, 0, 0, 0, 0, 0, 0, 0, 0, 0, 0, 0, 0, 0, 0, 0] = 4237370444 := by
  set_option maxRecDepth 4000 in decide

theorem c4bodyCrc : crc32_checksum c4BodyBytes = 57596851 := by
  rw [crc32_eq_crcFold, show c4BodyBytes = [71, 76, 79, 83, 1, 0, 0, 0, 0, 0, 0, 0, 0, 1, 0, 0, 0, 30, 132, 128, 0, 0, 0, 0] ++ ([95, 124, 148, 128, 0, 0, 0, 0, 0, 0, 0, 0, 0, 0, 0, 0, 0, 0, 0, 0, 0, 0, 0, 0] ++ [0, 0, 0, 0, 0, 0, 0, 0, 0, 0, 0, 0, 0, 0, 0, 0, 0, 0, 0, 0, 0, 0, 0, 0]) from by decide,
    crcFold_append, crcFold_append, c4crcChunk1, c4crcChunk2, c4crcChunk3]
  decide

theorem c4Header_serialize : c4Header.serialize = c4HeaderBytes := by
  rw [GlosHeader.serialize, show c4Header.bodyBytes = c4BodyBytes from by decide,
    c4bodyCrc]
  set_option maxRecDepth 2000 in decide

theorem c4Stream_eq : c4Stream = c4StreamBytes := by
  unfold c4Stream
  rw [c4Header_serialize]
  set_option maxRecDepth 8000 in decide

theorem c4HeaderDeser : GlosHeader.deserialize c4HeaderBytes = .ok c4Header := by
  have h := deserialize_ok_of c4HeaderBytes 1 0 0 IqFormat.Int16 Compression.None
    2000000 1602000000 0 0 0 0
    (by decide) (by decide) (by decide) (by decide)
    (by decide) (by decide) (by decide) (by decide)
    (by decide) (by decide) (by decide) (by decide)
    (by decide) (by decide) (by decide) (by decide)
    (by decide) (by decide) (by decide)
    (by rw [show slice c4HeaderBytes 0 72 = c4BodyBytes from by decide, c4bodyCrc]
        decide)
  rw [h]
  decide

theorem c4Step0 :
    nextBlockFuel (fun _ => none) Compression.None IqFormat.Int16 1 c4State0 =
      (NbOut.fuelOut, c4State1) := by
  set_option maxRecDepth 6000 in decide

theorem c4Step1 :
    nextBlockFuel (fun _ => none) Compression.None IqFormat.Int16 1 c4State1 =
      (NbOut.yield (.ok ({ timestamp_ns := 1, sample_count := 1, data := [0, 0, 0, 0], is_compressed := false })), c4State2) := by
  set_option maxRecDepth 6000 in decide

theorem c4Step2 :
    nextBlockFuel (fun _ => none) Compression.None IqFormat.Int16 1 c4State2 =
      (NbOut.fuelOut, c4State3) := by
  set_option maxRecDepth 6000 in decide

theorem c4Step3 :
    nextBlockFuel (fun _ => none) Compression.None IqFormat.Int16 1 c4State3 =
      (NbOut.fuelOut, c4State4) := by
  set_option maxRecDepth 6000 in decide

theorem c4Step4 :
    nextBlockFuel (fun _ => none) Compression.None IqFormat.Int16 1 c4State4 =
      (NbOut.fuelOut, c4State5) := by
  set_option maxRecDepth 6000 in decide

theorem c4Step5 :
    nextBlockFuel (fun _ => none) Compression.None IqFormat.Int16 1 c4State5 =
      (NbOut.fuelOut, c4State6) := by
  set_option maxRecDepth 6000 in decide

theorem c4Step6 :
    nextBlockFuel (fun _ => none) Compression.None IqFormat.Int16 1 c4State6 =
      (NbOut.fuelOut, c4State7) := by
  set_option maxRecDepth 6000 in decide

theorem c4Step7 :
    nextBlockFuel (fun _ => none) Compression.None IqFormat.Int16 1 c4State7 =
      (NbOut.fuelOut, c4State8) := by
  set_option maxRecDepth 6000 in decide

theorem c4Step8 :
    nextBlockFuel (fun _ => none) Compression.None IqFormat.Int16 1 c4State8 =
      (NbOut.fuelOut, c4State9) := by
  set_option maxRecDepth 6000 in decide

theorem c4Step9 :
    nextBlockFuel (fun _ => none) Compression.None IqFormat.Int16 1 c4State9 =
      (NbOut.fuelOut, c4State10) := by
  set_option maxRecDepth 6000 in decide

theorem c4Step10 :
    nextBlockFuel (fun _ => none) Compression.None IqFormat.Int16 1 c4State10 =
      (NbOut.fuelOut, c4State11) := by
  set_option maxRecDepth 6000 in decide

theorem c4Step11 :
    nextBlockFuel (fun _ => none) Compression.None IqFormat.Int16 1 c4State11 =
      (NbOut.fuelOut, c4State12) := by
  set_option maxRecDepth 6000 in decide

theorem c4Step12 :
    nextBlockFuel (fun _ => none) Compression.None IqFormat.Int16 1 c4State12 =
      (NbOut.fuelOut, c4State13) := by
  set_option maxRecDepth 6000 in decide

theorem c4Step13 :
    nextBlockFuel (fun _ => none) Compression.None IqFormat.Int16 1 c4State13 =
      (NbOut.fuelOut, c4State14) := by
  set_option maxRecDepth 6000 in decide

theorem c4Step14 :
    nextBlockFuel (fun _ => none) Compression.None IqFormat.Int16 1 c4State14 =
      (NbOut.fuelOut, c4State15) := by
  set_option maxRecDepth 6000 in decide

theorem c4Step15 :
    nextBlockFuel (fun _ => none) Compression.None IqFormat.Int16 1 c4State15 =
      (NbOut.fuelOut, c4State16) := by
  set_option maxRecDepth 6000 in decide

theorem c4Step16 :
    nextBlockFuel (fun _ => none) Compression.None IqFormat.Int16 1 c4State16 =
      (NbOut.fuelOut, c4State17) := by
  set_option maxRecDepth 6000 in decide

theorem c4Step17 :
    nextBlockFuel (fun _ => none) Compression.None IqFormat.Int16 1 c4State17 =
      (NbOut.fuelOut, c4State18) := by
  set_option maxRecDepth 6000 in decide

theorem c4Step18 :
    nextBlockFuel (fun _ => none) Compression.None IqFormat.Int16 1 c4State18 =
      (NbOut.fuelOut, c4State19) := by
  set_option maxRecDepth 6000 in decide

theorem c4Step19 :
    nextBlockFuel (fun _ => none) Compression.None IqFormat.Int16 1 c4State19 =
      (NbOut.fuelOut, c4State20) := by
  set_option maxRecDepth 6000 in decide

theorem c4Step20 :
    nextBlockFuel (fun _ => none) Compression.None IqFormat.Int16 1 c4State20 =
      (NbOut.fuelOut, c4State21) := by
  set_option maxRecDepth 6000 in decide

theorem c4Step21 :
    nextBlockFuel (fun _ => none) Compression.None IqFormat.Int16 1 c4State21 =
      (NbOut.fuelOut, c4State22) := by
  set_option maxRecDepth 6000 in decide

theorem c4Step22 :
    nextBlockFuel (fun _ => none) Compression.None IqFormat.Int16 1 c4State22 =
      (NbOut.fuelOut, c4State23) := by
  set_option maxRecDepth 6000 in decide

theorem c4Step23 :
    nextBlockFuel (fun _ => none) Compression.None IqFormat.Int16 1 c4State23 =
      (NbOut.fuelOut, c4State24) := by
  set_option maxRecDepth 6000 in decide

theorem c4Step24 :
    nextBlockFuel (fun _ => none) Compression.None IqFormat.Int16 1 c4State24 =
      (NbOut.fuelOut, c4State25) := by
  set_option maxRecDepth 6000 in decide

theorem c4Step25 :
    nextBlockFuel (fun _ => none) Compression.None IqFormat.Int16 1 c4State25 =
      (NbOut.fuelOut, c4State26) := by
  set_option maxRecDepth 6000 in decide

theorem c4Step26 :
    nextBlockFuel (fun _ => none) Compression.None IqFormat.Int16 1 c4State26 =
      (NbOut.fuelOut, c4State27) := by
  set_option maxRecDepth 6000 in decide

theorem c4Step27 :
    nextBlockFuel (fun _ => none) Compression.None IqFormat.Int16 1 c4State27 =
      (NbOut.yield (.ok ({ timestamp_ns := 3, sample_count := 1, data := [0, 0, 0, 0], is_compressed := false })), c4State28) := by
  set_option maxRecDepth 6000 in decide

theorem c4Step28 :
    nextBlockFuel (fun _ => none) Compression.None IqFormat.Int16 1 c4State28 =
      (NbOut.done, c4State29) := by
  set_option maxRecDepth 6000 in decide

theorem c4Next1 :
    nextBlockFuel (fun _ => none) Compression.None IqFormat.Int16 100 c4State0 =
      (NbOut.yield (.ok ({ timestamp_ns := 1, sample_count := 1, data := [0, 0, 0, 0], is_compressed := false })), c4State2) := by
  rw [show (100:Nat) = 99 + 1 from rfl,
    nextBlockFuel_step _ _ _ 99 _ _ c4Step0,
    show (99:Nat) = 98 + 1 from rfl,
    nextBlockFuel_yield _ _ _ 98 _ _ c4Step1]

theorem c4Next2 :
    nextBlockFuel (fun _ => none) Compression.None IqFormat.Int16 99 c4State2 =
      (NbOut.yield (.ok ({ timestamp_ns := 3, sample_count := 1, data := [0, 0, 0, 0], is_compressed := false })), c4State28) := by
  rw [show (99:Nat) = 98 + 1 from rfl,
    nextBlockFuel_step _ _ _ 98 _ _ c4Step2,
    show (98:Nat) = 97 + 1 from rfl,
    nextBlockFuel_step _ _ _ 97 _ _ c4Step3,
    show (97:Nat) = 96 + 1 from rfl,
    nextBlockFuel_step _ _ _ 96 _ _ c4Step4,
    show (96:Nat) = 95 + 1 from rfl,
    nextBlockFuel_step _ _ _ 95 _ _ c4Step5,
    show (95:Nat) = 94 + 1 from rfl,
    nextBlockFuel_step _ _ _ 94 _ _ c4Step6,
    show (94:Nat) = 93 + 1 from rfl,
    nextBlockFuel_step _ _ _ 93 _ _ c4Step7,
    show (93:Nat) = 92 + 1 from rfl,
    nextBlockFuel_step _ _ _ 92 _ _ c4Step8,
    show (92:Nat) = 91 + 1 from rfl,
    nextBlockFuel_step _ _ _ 91 _ _ c4Step9,
    show (91:Nat) = 90 + 1 from rfl,
    nextBlockFuel_step _ _ _ 90 _ _ c4Step10,
    show (90:Nat) = 89 + 1 from rfl,
    nextBlockFuel_step _ _ _ 89 _ _ c4Step11,
    show (89:Nat) = 88 + 1 from rfl,
    nextBlockFuel_step _ _ _ 88 _ _ c4Step12,
    show (88:Nat) = 87 + 1 from rfl,
    nextBlockFuel_step _ _ _ 87 _ _ c4Step13,
    show (87:Nat) = 86 + 1 from rfl,
    nextBlockFuel_step _ _ _ 86 _ _ c4Step14,
    show (86:Nat) = 85 + 1 from rfl,
    nextBlockFuel_step _ _ _ 85 _ _ c4Step15,
    show (85:Nat) = 84 + 1 from rfl,
    nextBlockFuel_step _ _ _ 84 _ _ c4Step16,
    show (84:Nat) = 83 + 1 from rfl,
    nextBlockFuel_step _ _ _ 83 _ _ c4Step17,
    show (83:Nat) = 82 + 1 from rfl,
    nextBlockFuel_step _ _ _ 82 _ _ c4Step18,
    show (82:Nat) = 81 + 1 from rfl,
    nextBlockFuel_step _ _ _ 81 _ _ c4Step19,
    show (81:Nat) = 80 + 1 from rfl,
    nextBlockFuel_step _ _ _ 80 _ _ c4Step20,
    show (80:Nat) = 79 + 1 from rfl,
    nextBlockFuel_step _ _ _ 79 _ _ c4Step21,
    show (79:Nat) = 78 + 1 from rfl,
    nextBlockFuel_step _ _ _ 78 _ _ c4Step22,
    show (78:Nat) = 77 + 1 from rfl,
    nextBlockFuel_step _ _ _ 77 _ _ c4Step23,
    show (77:Nat) = 76 + 1 from rfl,
    nextBlockFuel_step _ _ _ 76 _ _ c4Step24,
    show (76:Nat) = 75 + 1 from rfl,
    nextBlockFuel_step _ _ _ 75 _ _ c4Step25,
    show (75:Nat) = 74 + 1 from rfl,
    nextBlockFuel_step _ _ _ 74 _ _ c4Step26,
    show (74:Nat) = 73 + 1 from rfl,
    nextBlockFuel_yield _ _ _ 73 _ _ c4Step27]

theorem c4Next3 :
    nextBlockFuel (fun _ => none) Compression.None IqFormat.Int16 98 c4State28 =
      (NbOut.done, c4State29) := by
  rw [show (98:Nat) = 97 + 1 from rfl,
    nextBlockFuel_done _ _ _ 97 _ _ c4Step28]

theorem c4Run3 :
    runReader (fun _ => none) Compression.None IqFormat.Int16 98 c4State28 =
      ([], c4State29, true) := by
  rw [show (98:Nat) = 97 + 1 from rfl, runReader_done _ _ _ 97 _ _ c4Next3]

theorem c4Run2 :
    runReader (fun _ => none) Compression.None IqFormat.Int16 99 c4State2 =
      ([{ timestamp_ns := 3, sample_count := 1, data := [0, 0, 0, 0],
          is_compressed := false }], c4State29, true) := by
  rw [show (99:Nat) = 98 + 1 from rfl, runReader_yield_ok _ _ _ 98 _ _ _ c4Next2,
    c4Run3]

theorem c4Run1 :
    runReader (fun _ => none) Compression.None IqFormat.Int16 100 c4State0 =
      ([{ timestamp_ns := 1, sample_count := 1, data := [0, 0, 0, 0],
          is_compressed := false },
        { timestamp_ns := 3, sample_count := 1, data := [0, 0, 0, 0],
          is_compressed := false }], c4State29, true) := by
  rw [show (100:Nat) = 99 + 1 from rfl, runReader_yield_ok _ _ _ 99 _ _ _ c4Next1,
    c4Run2]

set_option maxRecDepth 4000 in
theorem c4New : GlosReader.new c4Stream = .ok ⟨c4Header, c4State0⟩ := by
  rw [c4Stream_eq]
  simp only [GlosReader.new]
  rw [if_neg (by decide), show c4StreamBytes.take 128 = c4HeaderBytes from by decide,
    c4HeaderDeser]
  decide

/-! ## UDP wire codec and timing controller (`glos-core/src/replayer.rs`) -/

/-- `UdpPacket::encode` errors exactly when the sample count leaves the
16-bit range or the 10-byte header plus payload exceeds the UDP payload
ceiling; a successful encode is the big-endian
`timestamp ‖ sample_count ‖ data` layout of exactly `10 + data.length`
bytes, and `decode` recovers the original fields from it. -/
theorem UdpPacket.encode_spec (b : IqBlock) (hts : b.timestamp_ns < 2 ^ 64) :
    (UdpPacket.encode b = .error () ↔
      65535 < b.sample_count ∨
        UDP_MAX_PAYLOAD < UDP_HEADER_SIZE + b.data.length) ∧
    ∀ buf, UdpPacket.encode b = .ok buf →
      buf.length = UDP_HEADER_SIZE + b.data.length ∧
      buf = toBEBytes 8 b.timestamp_ns ++ toBEBytes 2 b.sample_count ++ b.data ∧
      UdpPacket.decode buf = .ok (b.timestamp_ns, b.sample_count, b.data) := by
  constructor
  · simp only [UdpPacket.encode, UDP_MAX_PAYLOAD, UDP_HEADER_SIZE,
      UDP_TIMESTAMP_SIZE, UDP_SAMPLE_COUNT_SIZE]
    split
    · next hbig =>
      constructor
      · intro _; right; omega
      · intro _; rfl
    split
    · next hcnt =>
      constructor
      · intro _; left; omega
      · intro _; rfl
    · next hbig hcnt =>
      constructor
      · intro hc; exact absurd hc (by simp)
      · intro hor; omega
  · intro buf hbuf
    simp only [UdpPacket.encode, UDP_MAX_PAYLOAD, UDP_HEADER_SIZE,
      UDP_TIMESTAMP_SIZE, UDP_SAMPLE_COUNT_SIZE] at hbuf
    split at hbuf
    · exact absurd hbuf (by simp)
    split at hbuf
    · exact absurd hbuf (by simp)
    next hbig hcnt =>
    rw [Except.ok.injEq] at hbuf
    subst hbuf
    have hlen : (toBEBytes 8 b.timestamp_ns ++ toBEBytes 2 b.sample_count ++
        b.data).length = UDP_HEADER_SIZE + b.data.length := by
      simp [UDP_HEADER_SIZE, UDP_TIMESTAMP_SIZE, UDP_SAMPLE_COUNT_SIZE]
      omega
    refine ⟨hlen, rfl, ?_⟩
    unfold UdpPacket.decode
    rw [if_neg (by rw [hlen]; omega)]
    have h08 : slice (toBEBytes 8 b.timestamp_ns ++ toBEBytes 2 b.sample_count ++
        b.data) 0 8 = toBEBytes 8 b.timestamp_ns := by
      unfold slice
      rw [List.drop_zero, List.append_assoc, List.take_left' (by simp)]
    have h82 : slice (toBEBytes 8 b.timestamp_ns ++ toBEBytes 2 b.sample_count ++
        b.data) 8 2 = toBEBytes 2 b.sample_count := by
      unfold slice
      rw [List.append_assoc, List.drop_left' (by simp),
        List.take_left' (by simp)]
    have hdr : (toBEBytes 8 b.timestamp_ns ++ toBEBytes 2 b.sample_count ++
        b.data).drop UDP_HEADER_SIZE = b.data := by
      rw [List.drop_left' (by simp [UDP_HEADER_SIZE, UDP_TIMESTAMP_SIZE,
        UDP_SAMPLE_COUNT_SIZE])]
    rw [h08, h82, hdr, fromBEBytes_toBEBytes 8 _ hts,
      fromBEBytes_toBEBytes 2 _ (by norm_num; omega)]

/-! ## The capture producer (`glos-recorder/src/device.rs`) -/

theorem deviceRunSteps_full (dev : SimulatedDevice) (genTs : Nat → Nat)
    (genData : Nat → List Nat) (k : Nat) :
    ∀ (ch : BoundedChannel) (m : RecorderMetrics) (i : Nat),
      ch.capacity ≤ ch.queue.length →
      deviceRunSteps dev genTs genData k ch m i =
        (ch, { m with dropped_samples :=
          m.dropped_samples + k * dev.chunk_samples }) := by
  induction k with
  | zero =>
    intro ch m i hfull
    simp [deviceRunSteps]
  | succ k ih =>
    intro ch m i hfull
    rw [deviceRunSteps]
    rw [show ch.try_send _ = none from by
      simp [BoundedChannel.try_send]
      omega]
    rw [ih ch _ (i + 1) hfull]
    simp
    ring

/-- The CrcMismatch arm of `next_block`: count the corruption, drain one
byte, loop. -/
theorem nextBlock_crcMismatch_step (L : List Nat → Option (List Nat))
    (c : Compression) (f : IqFormat) (fuel : Nat) (s : ReaderState)
    (e fd : Nat) (h20 : 20 ≤ s.leftover.length)
    (hcrc : IqBlock.deserialize s.leftover c = .error (.CrcMismatch e fd)) :
    nextBlockFuel L c f (fuel + 1) s =
      nextBlockFuel L c f fuel
        { s with leftover := s.leftover.drop 1,
                 stats := { s.stats with
                   blocks_corrupted := s.stats.blocks_corrupted + 1 } } := by
  conv_lhs => rw [nextBlockFuel]
  rw [if_pos h20, hcrc]

/-! ## Pointwise buffer-surgery lemmas (single-byte corruption, byte
substitution) -/

theorem xor255_ne (x : Nat) : x ^^^ 255 ≠ x := by
  intro hcontra
  have h0 := congrArg (Nat.testBit · 0) hcontra
  simp [Nat.testBit_xor, show Nat.testBit 255 0 = true from by decide] at h0
  omega

theorem byteAt_set_self {l : List Nat} {p v : Nat} (hp : p < l.length) :
    byteAt (l.set p v) p = v := by
  unfold byteAt
  rw [List.getD_eq_getElem?_getD, List.getElem?_set_eq hp]
  rfl

theorem byteAt_set_ne {l : List Nat} {p q v : Nat} (h : p ≠ q) :
    byteAt (l.set p v) q = byteAt l q := by
  unfold byteAt
  rw [List.getD_eq_getElem?_getD, List.getElem?_set_ne h,
    ← List.getD_eq_getElem?_getD]

theorem slice_set_before {l : List Nat} {p v off n : Nat} (h : off + n ≤ p) :
    slice (l.set p v) off n = slice l off n := by
  unfold slice
  rw [List.drop_set, if_neg (by omega), List.set_take]
  rw [List.set_eq_of_length_le]
  calc ((l.drop off).take n).length ≤ n := List.length_take_le n _
    _ ≤ p - off := by omega

theorem slice_set_after {l : List Nat} {p v off n : Nat} (h : p < off) :
    slice (l.set p v) off n = slice l off n := by
  unfold slice
  rw [List.drop_set, if_pos h]

theorem slice0_set {l : List Nat} {p v n : Nat} (hp : p < n) :
    slice (l.set p v) 0 n = (slice l 0 n).set p v := by
  unfold slice
  simp only [List.drop_zero]
  rw [List.set_take]

theorem byteAt_slice0 {l : List Nat} {q n : Nat} (hq : q < n) :
    byteAt (slice l 0 n) q = byteAt l q := by
  unfold slice byteAt
  simp only [List.drop_zero]
  rw [List.getD_eq_getElem?_getD, List.getElem?_take_of_lt hq,
    ← List.getD_eq_getElem?_getD]

theorem byteAt_flipAt_self {l : List Nat} {p : Nat} (hp : p < l.length) :
    byteAt (flipAt l p) p = byteAt l p ^^^ 255 :=
  byteAt_set_self hp

theorem byteAt_flipAt_ne {l : List Nat} {p q : Nat} (h : p ≠ q) :
    byteAt (flipAt l p) q = byteAt l q :=
  byteAt_set_ne h

theorem slice_flipAt_before {l : List Nat} {p off n : Nat} (h : off + n ≤ p) :
    slice (flipAt l p) off n = slice l off n :=
  slice_set_before h

theorem slice_flipAt_after {l : List Nat} {p off n : Nat} (h : p < off) :
    slice (flipAt l p) off n = slice l off n :=
  slice_set_after h

theorem slice0_flipAt {l : List Nat} {p n : Nat} (hp : p < n) :
    slice (flipAt l p) 0 n = flipAt (slice l 0 n) p := by
  unfold flipAt
  rw [slice0_set hp]
  congr 1
  exact congrArg (· ^^^ 255) (byteAt_slice0 hp).symm

theorem allBytes_set {l : List Nat} {p v : Nat} (hl : allBytes l) (hv : v < 256) :
    allBytes (l.set p v) := by
  intro b hb
  rcases List.mem_or_eq_of_mem_set hb with hb | rfl
  · exact hl b hb
  · exact hv

/-- The serialized header's magic bytes. -/
theorem serialize_byte0 (h : GlosHeader) : byteAt h.serialize 0 = 71 := by
  rw [byteAt_serialize_body h 0 (by omega)]; rfl

theorem serialize_byte1 (h : GlosHeader) : byteAt h.serialize 1 = 76 := by
  rw [byteAt_serialize_body h 1 (by omega)]; rfl

theorem serialize_byte2 (h : GlosHeader) : byteAt h.serialize 2 = 79 := by
  rw [byteAt_serialize_body h 2 (by omega)]; rfl

theorem serialize_byte3 (h : GlosHeader) : byteAt h.serialize 3 = 83 := by
  rw [byteAt_serialize_body h 3 (by omega)]; rfl

/-- Flipping any byte of the checksum-covered region makes `deserialize`
fail, and the failure is a checksum mismatch exactly when the flipped
byte is none of the magic (0–3), version (4), sample-format (13) or
compression (14) bytes — flips at those positions are caught by the
earlier structural checks. -/
theorem header_flip_classified {h : GlosHeader} (hwf : h.WF) {p : Nat}
    (hp : p < 72) :
    (∃ err, GlosHeader.deserialize (flipAt h.serialize p) = .error err) ∧
    (resultIsCrcMismatch (GlosHeader.deserialize (flipAt h.serialize p)) = true ↔
      p ∉ ([0, 1, 2, 3, 4, 13, 14] : List Nat)) := by
  obtain ⟨hv, hf, hsr, hcf, hgb, hts, hte, htot⟩ := hwf
  have hwf' : h.WF := ⟨hv, hf, hsr, hcf, hgb, hts, hte, htot⟩
  have hplen : p < h.serialize.length := by rw [length_serialize]; omega
  by_cases hmem : p ∈ ([0, 1, 2, 3, 4, 13, 14] : List Nat)
  · -- a structurally checked byte: an earlier, non-CRC error fires
    have hiff : (p ∉ ([0, 1, 2, 3, 4, 13, 14] : List Nat)) = False := by
      simp [hmem]
    have hmagicCase : p < 4 →
        GlosHeader.deserialize (flipAt h.serialize p) = .error .InvalidMagic := by
      intro hq4
      apply deserialize_invalidMagic
      intro hEq
      have hbyte := congrArg (fun l => byteAt l p) hEq
      simp only at hbyte
      rw [byteAt_slice0 hq4, byteAt_flipAt_self hplen] at hbyte
      interval_cases p
      · rw [serialize_byte0] at hbyte; exact absurd hbyte (by decide)
      · rw [serialize_byte1] at hbyte; exact absurd hbyte (by decide)
      · rw [serialize_byte2] at hbyte; exact absurd hbyte (by decide)
      · rw [serialize_byte3] at hbyte; exact absurd hbyte (by decide)
    simp only [List.mem_cons, List.not_mem_nil, or_false] at hmem
    rcases hmem with rfl | rfl | rfl | rfl | rfl | rfl | rfl
    · exact ⟨⟨_, hmagicCase (by omega)⟩, by
        rw [hmagicCase (by omega), hiff]; simp [resultIsCrcMismatch]⟩
    · exact ⟨⟨_, hmagicCase (by omega)⟩, by
        rw [hmagicCase (by omega), hiff]; simp [resultIsCrcMismatch]⟩
    · exact ⟨⟨_, hmagicCase (by omega)⟩, by
        rw [hmagicCase (by omega), hiff]; simp [resultIsCrcMismatch]⟩
    · exact ⟨⟨_, hmagicCase (by omega)⟩, by
        rw [hmagicCase (by omega), hiff]; simp [resultIsCrcMismatch]⟩
    · -- version byte
      have hver : GlosHeader.deserialize (flipAt h.serialize 4) =
          .error (.UnsupportedVersion (byteAt (flipAt h.serialize 4) 4)
            GLOS_VERSION) := by
        apply deserialize_badVersion
        · rw [slice_flipAt_before (by omega), serialize_magic]
        · rw [byteAt_flipAt_self hplen, serialize_byte4, hv]
          decide
      exact ⟨⟨_, hver⟩, by rw [hver, hiff]; simp [resultIsCrcMismatch]⟩
    · -- sample-format byte
      have hiq : GlosHeader.deserialize (flipAt h.serialize 13) =
          .error .FormatViolation := by
        apply deserialize_badIqFormat
        · rw [slice_flipAt_before (by omega), serialize_magic]
        · rw [byteAt_flipAt_ne (by omega), serialize_byte4, hv]
        · rw [byteAt_flipAt_self hplen, serialize_byte13]
          cases h.iq_format <;> decide
      exact ⟨⟨_, hiq⟩, by rw [hiq, hiff]; simp [resultIsCrcMismatch]⟩
    · -- compression byte
      have hcomp : GlosHeader.deserialize (flipAt h.serialize 14) =
          .error .FormatViolation := by
        apply deserialize_badCompression _ h.iq_format
        · rw [slice_flipAt_before (by omega), serialize_magic]
        · rw [byteAt_flipAt_ne (by omega), serialize_byte4, hv]
        · rw [byteAt_flipAt_ne (by omega), serialize_byte13]
        · rw [byteAt_flipAt_self hplen, serialize_byte14]
          cases h.compression <;> decide
      exact ⟨⟨_, hcomp⟩, by rw [hcomp, hiff]; simp [resultIsCrcMismatch]⟩
  · -- a CRC-only byte: the checksum comparison catches the flip
    have hnes : p ≠ 0 ∧ p ≠ 1 ∧ p ≠ 2 ∧ p ≠ 3 ∧ p ≠ 4 ∧ p ≠ 13 ∧ p ≠ 14 := by
      simp only [List.mem_cons, List.not_mem_nil, or_false, not_or] at hmem
      exact hmem
    obtain ⟨hne0, hne1, hne2, hne3, hne4, hne13, hne14⟩ := hnes
    have hcrc_lt : crc32_checksum h.bodyBytes < 256 ^ 4 := by
      rw [pow256_4]
      exact crc32_lt (allBytes_bodyBytes hwf')
    have hmm : GlosHeader.deserialize (flipAt h.serialize p) =
        .error (.CrcMismatch (crc32_checksum (slice (flipAt h.serialize p) 0 72))
          (fromBEBytes (slice (flipAt h.serialize p) 72 4))) := by
      apply deserialize_crcMismatch _ h.iq_format h.compression
      · rw [slice_flipAt_before (by omega), serialize_magic]
      · rw [byteAt_flipAt_ne hne4, serialize_byte4, hv]
      · rw [byteAt_flipAt_ne hne13, serialize_byte13]
      · rw [byteAt_flipAt_ne hne14, serialize_byte14]
      · rw [slice_flipAt_after hp, serialize_crc_field,
          fromBEBytes_toBEBytes 4 _ hcrc_lt, slice0_flipAt hp, serialize_body72]
        exact (crc32_flipAt_ne (allBytes_bodyBytes hwf')
          (by rw [length_bodyBytes]; omega)).symm
    refine ⟨⟨_, hmm⟩, ?_⟩
    rw [hmm]
    simp [resultIsCrcMismatch, hmem]

/-! ## Byte-substitution header families (device-type tolerance and
format-byte precedence) -/

theorem byteAt_append_left {l1 l2 : List Nat} {i : Nat} (h : i < l1.length) :
    byteAt (l1 ++ l2) i = byteAt l1 i := by
  unfold byteAt
  rw [List.getD_eq_getElem?_getD, List.getElem?_append_left h,
    ← List.getD_eq_getElem?_getD]

theorem slice_append_left {l1 l2 : List Nat} {off n : Nat}
    (h : off + n ≤ l1.length) :
    slice (l1 ++ l2) off n = slice l1 off n := by
  unfold slice
  rw [List.drop_append_eq_append_drop, List.take_append_eq_append_take]
  have h0 : n - (l1.drop off).length = 0 := by
    rw [List.length_drop]
    omega
  rw [h0]
  simp

theorem hdr_body72 {body : List Nat} (hlen : body.length = 72) (R : List Nat) :
    slice (body ++ R) 0 72 = body := by
  rw [slice_append_left (by omega)]
  unfold slice
  simp [List.take_of_length_le, hlen]

theorem hdr_crc_field {body : List Nat} (hlen : body.length = 72) (crc4 : List Nat)
    (hc4 : crc4.length = 4) :
    slice (body ++ crc4 ++ List.replicate 52 0) 72 4 = crc4 := by
  unfold slice
  rw [List.append_assoc, List.drop_append_eq_append_drop]
  simp [hlen, List.drop_eq_nil_of_le, List.take_append_eq_append_take,
    List.take_of_length_le, hc4]

theorem bodyBytes_magic (h : GlosHeader) : slice h.bodyBytes 0 4 = GLOS_MAGIC :=
  (slice_serialize_body h 0 4 (by omega)).symm.trans (serialize_magic h)

theorem bodyBytes_byte4 (h : GlosHeader) : byteAt h.bodyBytes 4 = h.version :=
  (byteAt_serialize_body h 4 (by omega)).symm.trans (serialize_byte4 h)

theorem bodyBytes_byte5 (h : GlosHeader) : byteAt h.bodyBytes 5 = h.flags :=
  (byteAt_serialize_body h 5 (by omega)).symm.trans (serialize_byte5 h)

theorem bodyBytes_byte13 (h : GlosHeader) :
    byteAt h.bodyBytes 13 = h.iq_format.as_u8 :=
  (byteAt_serialize_body h 13 (by omega)).symm.trans (serialize_byte13 h)

theorem bodyBytes_byte14 (h : GlosHeader) :
    byteAt h.bodyBytes 14 = h.compression.as_u8 :=
  (byteAt_serialize_body h 14 (by omega)).symm.trans (serialize_byte14 h)

theorem SdrType.from_u8_unknown (v : Nat) (h0 : v ≠ 0) (h1 : v ≠ 1) (h2 : v ≠ 2) :
    SdrType.from_u8 v = .Unknown := by
  obtain ⟨n, rfl⟩ : ∃ n, v = n + 3 := ⟨v - 3, by omega⟩
  rfl

theorem length_set_body (h : GlosHeader) (i v : Nat) :
    (h.bodyBytes.set i v).length = 72 := by
  rw [List.length_set, length_bodyBytes]

/-- Every value of the device-type byte is accepted: the modified header
decodes successfully, with the device type read through
`SdrType.from_u8`. -/
theorem deserialize_headerBufWithSdr {h : GlosHeader} (hwf : h.WF) {v : Nat}
    (hv256 : v < 256) :
    GlosHeader.deserialize (headerBufWithSdr h v) =
      .ok { h with sdr_type := SdrType.from_u8 v } := by
  obtain ⟨hv, hf, hsr, hcf, hgb, hts, hte, htot⟩ := hwf
  have hwf' : h.WF := ⟨hv, hf, hsr, hcf, hgb, hts, hte, htot⟩
  have hblen : (h.bodyBytes.set 12 v).length = 72 := length_set_body h 12 v
  have hcrc_lt : crc32_checksum (h.bodyBytes.set 12 v) < 256 ^ 4 := by
    rw [pow256_4]
    exact crc32_lt (allBytes_set (allBytes_bodyBytes hwf') hv256)
  have hfield : ∀ off n, 16 ≤ off → off + n ≤ 72 →
      slice (headerBufWithSdr h v) off n = slice h.serialize off n := by
    intro off n h16 h72
    rw [headerBufWithSdr]
    rw [List.append_assoc, slice_append_left (by omega),
      slice_set_after (by omega), slice_serialize_body h off n h72]
  have hbyte : ∀ i, i < 72 → i ≠ 12 →
      byteAt (headerBufWithSdr h v) i = byteAt h.bodyBytes i := by
    intro i hi hne
    rw [headerBufWithSdr]
    rw [List.append_assoc, byteAt_append_left (by omega),
      byteAt_set_ne (Ne.symm hne)]
  rw [deserialize_ok_of (headerBufWithSdr h v) h.version h.flags v h.iq_format
    h.compression h.sample_rate h.center_freq h.gain_db_bits h.timestamp_start
    h.timestamp_end h.total_samples
    (by rw [headerBufWithSdr, List.append_assoc, slice_append_left (by omega),
          slice_set_before (by omega), bodyBytes_magic])
    (by rw [hbyte 4 (by omega) (by omega), bodyBytes_byte4]) hv
    (by rw [hbyte 5 (by omega) (by omega), bodyBytes_byte5])
    (by rw [headerBufWithSdr, List.append_assoc, byteAt_append_left (by omega),
          byteAt_set_self (by rw [length_bodyBytes]; omega)])
    (by rw [hbyte 13 (by omega) (by omega), bodyBytes_byte13])
    (by rw [hbyte 14 (by omega) (by omega), bodyBytes_byte14])
    (by rw [hfield 16 4 (by omega) (by omega), serialize_field16]) hsr
    (by rw [hfield 20 8 (by omega) (by omega), serialize_field20]) hcf
    (by rw [hfield 28 4 (by omega) (by omega), serialize_field28]) hgb
    (by rw [hfield 32 8 (by omega) (by omega), serialize_field32]) hts
    (by rw [hfield 40 8 (by omega) (by omega), serialize_field40]) hte
    (by rw [hfield 48 8 (by omega) (by omega), serialize_field48]) htot
    (by rw [headerBufWithSdr]
        rw [hdr_crc_field hblen _ (by simp), List.append_assoc,
          hdr_body72 hblen, fromBEBytes_toBEBytes 4 _ hcrc_lt])]

/-- An out-of-range sample-format byte is rejected with `FormatViolation`
for every possible checksum field: the rejection precedes the checksum
comparison. -/
theorem deserialize_headerBufWithIq {h : GlosHeader} (hwf : h.WF) {v : Nat}
    (hv3 : 3 ≤ v) (crc4 : List Nat) :
    GlosHeader.deserialize (headerBufWithIq h v crc4) = .error .FormatViolation := by
  obtain ⟨hv, hf, -, -, -, -, -, -⟩ := hwf
  apply deserialize_badIqFormat
  · rw [headerBufWithIq, List.append_assoc, slice_append_left
      (by rw [length_set_body]; omega), slice_set_before (by omega),
      bodyBytes_magic]
  · rw [headerBufWithIq, List.append_assoc, byteAt_append_left
      (by rw [length_set_body]; omega), byteAt_set_ne (by omega),
      bodyBytes_byte4, hv]
  · rw [headerBufWithIq, List.append_assoc, byteAt_append_left
      (by rw [length_set_body]; omega),
      byteAt_set_self (by rw [length_bodyBytes]; omega)]
    exact hv3

/-- An out-of-range compression byte is likewise rejected with
`FormatViolation` for every possible checksum field. -/
theorem deserialize_headerBufWithComp {h : GlosHeader} (hwf : h.WF) {v : Nat}
    (hv2 : 2 ≤ v) (crc4 : List Nat) :
    GlosHeader.deserialize (headerBufWithComp h v crc4) =
      .error .FormatViolation := by
  obtain ⟨hv, hf, -, -, -, -, -, -⟩ := hwf
  apply deserialize_badCompression _ h.iq_format
  · rw [headerBufWithComp, List.append_assoc, slice_append_left
      (by rw [length_set_body]; omega), slice_set_before (by omega),
      bodyBytes_magic]
  · rw [headerBufWithComp, List.append_assoc, byteAt_append_left
      (by rw [length_set_body]; omega), byteAt_set_ne (by omega),
      bodyBytes_byte4, hv]
  · rw [headerBufWithComp, List.append_assoc, byteAt_append_left
      (by rw [length_set_body]; omega), byteAt_set_ne (by omega),
      bodyBytes_byte13]
  · rw [headerBufWithComp, List.append_assoc, byteAt_append_left
      (by rw [length_set_body]; omega),
      byteAt_set_self (by rw [length_bodyBytes]; omega)]
    exact hv2

/-! ## The claims -/

/-- Claim C1 (header round trip): for every valid header `H`,
deserializing the 128-byte buffer produced by `GlosHeader::serialize(H)`
succeeds and returns a header equal to `H` field-for-field; the gain field
is carried as its exact `f32` bit pattern (`gain_db_bits`). -/
theorem glos_claim_C1 (h : GlosHeader) (hwf : h.WF) :
    GlosHeader.deserialize h.serialize = .ok h :=
  header_deserialize_serialize hwf

theorem glos_claim_C1_witness :
    c4Header.WF ∧ GlosHeader.deserialize c4Header.serialize = .ok c4Header :=
  ⟨by unfold GlosHeader.WF; decide,
   glos_claim_C1 c4Header (by unfold GlosHeader.WF; decide)⟩

/-- Claim C2 (block round trip): for every block `B` whose serialization
stays within the maximum framed size, `IqBlock::deserialize` applied to
`IqBlock::serialize(B)` under any compression mode succeeds, preserves
`data`, `sample_count` and `timestamp_ns`, and reports a consumed-byte
count equal to the serialized buffer's length. -/
theorem glos_claim_C2 {b : IqBlock} (hwf : b.WF)
    (hsize : ¬ 4 + 4 + 8 + b.data.length + 4 > GLOS_MAX_BLOCK_SIZE)
    (cmp : Compression) :
    ∀ out, b.serialize = .ok out →
      IqBlock.deserialize out cmp =
        .ok ({ timestamp_ns := b.timestamp_ns, sample_count := b.sample_count,
               data := b.data, is_compressed := cmp == .Lz4 }, out.length) :=
  block_deserialize_serialize hwf hsize cmp

theorem glos_claim_C2_witness :
    (c4Block 1 1).WF ∧
    ¬ 4 + 4 + 8 + (c4Block 1 1).data.length + 4 > GLOS_MAX_BLOCK_SIZE ∧
    (c4Block 1 1).serialize =
      .ok [0, 0, 0, 16, 0, 0, 0, 1, 0, 0, 0, 0, 0, 0, 0, 1, 0, 0, 0, 0,
           12, 77, 187, 96] ∧
    IqBlock.deserialize
        [0, 0, 0, 16, 0, 0, 0, 1, 0, 0, 0, 0, 0, 0, 0, 1, 0, 0, 0, 0,
         12, 77, 187, 96] Compression.None =
      .ok ({ timestamp_ns := (c4Block 1 1).timestamp_ns,
             sample_count := (c4Block 1 1).sample_count,
             data := (c4Block 1 1).data,
             is_compressed := Compression.None == .Lz4 },
           ([0, 0, 0, 16, 0, 0, 0, 1, 0, 0, 0, 0, 0, 0, 0, 1, 0, 0, 0, 0,
             12, 77, 187, 96] : List Nat).length) := by
  have hwf : (c4Block 1 1).WF := by
    unfold IqBlock.WF allBytes
    decide
  have hsize : ¬ 4 + 4 + 8 + (c4Block 1 1).data.length + 4 >
      GLOS_MAX_BLOCK_SIZE := by decide
  have hser : (c4Block 1 1).serialize =
      .ok [0, 0, 0, 16, 0, 0, 0, 1, 0, 0, 0, 0, 0, 0, 0, 1, 0, 0, 0, 0,
           12, 77, 187, 96] := by
    set_option maxRecDepth 4000 in decide
  exact ⟨hwf, hsize, hser, glos_claim_C2 hwf hsize Compression.None _ hser⟩

/-- Claim C3 (endianness rule): `serialize` writes each multi-byte integer
field little-endian exactly when bit 0 of the flags byte is set and
big-endian otherwise, while the checksum field at `[72..76)` is always the
big-endian CRC32 of bytes `[0..72)`; and every header accepted by
`deserialize` had its fields read with the endianness selected by bit 0 of
the stored flags byte and its checksum field read big-endian against the
recomputed CRC32. -/
theorem glos_claim_C3 (h : GlosHeader) (buf : List Nat) (h' : GlosHeader)
    (hok : GlosHeader.deserialize buf = .ok h') :
    (slice h.serialize 16 4 =
      (if h.flags &&& 1 = 1 then toLEBytes else toBEBytes) 4 h.sample_rate) ∧
    (slice h.serialize 20 8 =
      (if h.flags &&& 1 = 1 then toLEBytes else toBEBytes) 8 h.center_freq) ∧
    (slice h.serialize 28 4 =
      (if h.flags &&& 1 = 1 then toLEBytes else toBEBytes) 4 h.gain_db_bits) ∧
    (slice h.serialize 32 8 =
      (if h.flags &&& 1 = 1 then toLEBytes else toBEBytes) 8
        h.timestamp_start) ∧
    (slice h.serialize 40 8 =
      (if h.flags &&& 1 = 1 then toLEBytes else toBEBytes) 8
        h.timestamp_end) ∧
    (slice h.serialize 48 8 =
      (if h.flags &&& 1 = 1 then toLEBytes else toBEBytes) 8
        h.total_samples) ∧
    (slice h.serialize 72 4 =
      toBEBytes 4 (crc32_checksum (slice h.serialize 0 72))) ∧
    (h'.sample_rate =
      (if byteAt buf 5 &&& 1 = 1 then fromLEBytes else fromBEBytes)
        (slice buf 16 4)) ∧
    (h'.center_freq =
      (if byteAt buf 5 &&& 1 = 1 then fromLEBytes else fromBEBytes)
        (slice buf 20 8)) ∧
    (h'.gain_db_bits =
      (if byteAt buf 5 &&& 1 = 1 then fromLEBytes else fromBEBytes)
        (slice buf 28 4)) ∧
    (h'.timestamp_start =
      (if byteAt buf 5 &&& 1 = 1 then fromLEBytes else fromBEBytes)
        (slice buf 32 8)) ∧
    (h'.timestamp_end =
      (if byteAt buf 5 &&& 1 = 1 then fromLEBytes else fromBEBytes)
        (slice buf 40 8)) ∧
    (h'.total_samples =
      (if byteAt buf 5 &&& 1 = 1 then fromLEBytes else fromBEBytes)
        (slice buf 48 8)) ∧
    fromBEBytes (slice buf 72 4) = crc32_checksum (slice buf 0 72) := by
  obtain ⟨-, -, -, -, -, e16, e20, e28, e32, e40, e48, ecrc⟩ :=
    deserialize_ok_inv hok
  have hsel : ∀ w v : Nat, writeInt (h.flags &&& 1 == 1) w v =
      (if h.flags &&& 1 = 1 then toLEBytes else toBEBytes) w v := by
    intro w v
    by_cases hb : h.flags % 2 = 1 <;>
      simp [writeInt, beq_iff_eq, Nat.and_one_is_mod, hb]
  have hsel' : ∀ l : List Nat, readInt (byteAt buf 5 &&& 1 == 1) l =
      (if byteAt buf 5 &&& 1 = 1 then fromLEBytes else fromBEBytes) l := by
    intro l
    by_cases hb : byteAt buf 5 % 2 = 1 <;>
      simp [readInt, beq_iff_eq, Nat.and_one_is_mod, hb]
  refine ⟨?_, ?_, ?_, ?_, ?_, ?_, ?_, ?_, ?_, ?_, ?_, ?_, ?_, ecrc⟩
  · rw [serialize_field16, hsel]
  · rw [serialize_field20, hsel]
  · rw [serialize_field28, hsel]
  · rw [serialize_field32, hsel]
  · rw [serialize_field40, hsel]
  · rw [serialize_field48, hsel]
  · rw [serialize_crc_field, serialize_body72]
  · rw [e16, hsel']
  · rw [e20, hsel']
  · rw [e28, hsel']
  · rw [e32, hsel']
  · rw [e40, hsel']
  · rw [e48, hsel']

theorem glos_claim_C3_witness :
    GlosHeader.deserialize c4HeaderBytes = .ok c4Header ∧
    fromBEBytes (slice c4HeaderBytes 72 4) =
      crc32_checksum (slice c4HeaderBytes 0 72) :=
  ⟨c4HeaderDeser,
   (glos_claim_C3 c4Header c4HeaderBytes c4Header
      c4HeaderDeser).2.2.2.2.2.2.2.2.2.2.2.2.2⟩

/-- Claim C4 (resynchronization outcome): on the stream made of a valid
header followed by three valid serialized blocks whose middle block has
the last byte of its trailing checksum flipped, the reader construction
succeeds with zero corrupted blocks, and iterating `next_block` to
completion recovers exactly the first and third blocks while the
corrupted-block counter increments by exactly one. -/
theorem glos_claim_C4 :
    ∃ m : GlosReaderModel, GlosReader.new c4Stream = .ok m ∧
      m.state.stats.blocks_corrupted = 0 ∧
      ∃ s : ReaderState,
        runReader (fun _ => none) Compression.None IqFormat.Int16 100 m.state =
          ([c4Block 1 1, c4Block 3 1], s, true) ∧
        s.stats.blocks_corrupted = m.state.stats.blocks_corrupted + 1 := by
  refine ⟨⟨c4Header, c4State0⟩, c4New, rfl, c4State29, ?_, rfl⟩
  rw [c4Run1]
  decide

/-- Claim C5, counterexample to the literal statement: flipping the byte
at position 0 of a valid serialized header corrupts the magic, so
`deserialize` fails with `InvalidMagic` — an error, but not the claimed
checksum mismatch. -/
theorem glos_claim_C5_counterexample :
    c4Header.WF ∧ (0 : Nat) < 72 ∧
    GlosHeader.deserialize (flipAt c4Header.serialize 0) =
      .error .InvalidMagic ∧
    resultIsCrcMismatch
      (GlosHeader.deserialize (flipAt c4Header.serialize 0)) = false := by
  have hd : GlosHeader.deserialize (flipAt c4Header.serialize 0) =
      .error .InvalidMagic := by
    rw [c4Header_serialize]
    decide
  exact ⟨by unfold GlosHeader.WF; decide, by decide, hd, by rw [hd]; rfl⟩

/-- Claim C5, amended: flipping any single byte of the checksum-covered
region `[0..72)` of a valid serialized header makes `deserialize` fail,
and the failure is the checksum-mismatch error exactly when the flipped
position is none of the structurally checked bytes
(magic `0–3`, version `4`, sample-format `13`, compression `14`). -/
theorem glos_claim_C5 {h : GlosHeader} (hwf : h.WF) {p : Nat} (hp : p < 72) :
    (∃ err, GlosHeader.deserialize (flipAt h.serialize p) = .error err) ∧
    (resultIsCrcMismatch (GlosHeader.deserialize (flipAt h.serialize p)) =
        true ↔ p ∉ ([0, 1, 2, 3, 4, 13, 14] : List Nat)) :=
  header_flip_classified hwf hp

theorem glos_claim_C5_witness :
    c4Header.WF ∧ (20 : Nat) < 72 ∧
    ((∃ err, GlosHeader.deserialize (flipAt c4Header.serialize 20) =
        .error err) ∧
     (resultIsCrcMismatch
        (GlosHeader.deserialize (flipAt c4Header.serialize 20)) = true ↔
      (20 : Nat) ∉ ([0, 1, 2, 3, 4, 13, 14] : List Nat))) :=
  ⟨by unfold GlosHeader.WF; decide, by decide,
   @glos_claim_C5 c4Header (by unfold GlosHeader.WF; decide) 20 (by decide)⟩

/-- Claim C6 (resynchronization step): whenever the window holds at least
the 20-byte block preamble and the block decode fails with a checksum
mismatch, one `next_block` step increments the corrupted-block counter,
removes exactly one byte from the front of the window, and retries. -/
theorem glos_claim_C6 (L : List Nat → Option (List Nat)) (c : Compression)
    (f : IqFormat) (fuel : Nat) (s : ReaderState) (e fd : Nat)
    (h20 : 20 ≤ s.leftover.length)
    (hcrc : IqBlock.deserialize s.leftover c = .error (.CrcMismatch e fd)) :
    nextBlockFuel L c f (fuel + 1) s =
      nextBlockFuel L c f fuel
        { s with leftover := s.leftover.drop 1,
                 stats := { s.stats with
                   blocks_corrupted := s.stats.blocks_corrupted + 1 } } :=
  nextBlock_crcMismatch_step L c f fuel s e fd h20 hcrc

theorem glos_claim_C6_witness :
    20 ≤ c4State2.leftover.length ∧
    nextBlockFuel (fun _ => none) Compression.None IqFormat.Int16 (0 + 1)
        c4State2 =
      nextBlockFuel (fun _ => none) Compression.None IqFormat.Int16 0
        { c4State2 with leftover := c4State2.leftover.drop 1,
                        stats := { c4State2.stats with
                          blocks_corrupted :=
                            c4State2.stats.blocks_corrupted + 1 } } :=
  ⟨by decide,
   glos_claim_C6 (fun _ => none) Compression.None IqFormat.Int16 0 c4State2
     1273872816 1273872719 (by decide)
     (by set_option maxRecDepth 6000 in decide)⟩

/-- Claim C7, counterexample to the literal statement: the timing
controller's constructor never rejects a non-positive speed — with
input speed `0` it still constructs a controller, silently clamping the
multiplier to `0.01`. -/
theorem glos_claim_C7_counterexample :
    (0 : Rat) ≤ 0 ∧
    (TimingController.new 0 false).speed = 1 / 100 ∧
    0 < (TimingController.new 0 false).speed := by
  have hmax : max (0 : Rat) (1 / 100) = 1 / 100 := max_eq_right (by norm_num)
  refine ⟨le_refl 0, ?_, ?_⟩
  · show max (0 : Rat) (1 / 100) = 1 / 100
    exact hmax
  · show (0 : Rat) < max 0 (1 / 100)
    rw [hmax]
    norm_num

/-- Claim C7, amended: the speed check that rejects non-positive speed
multipliers lives in `ReplaySession::new`, which errors exactly on
`speed ≤ 0`; `TimingController::new` itself always succeeds and clamps
the speed from below by `0.01`. -/
theorem glos_claim_C7 (speed : Rat) (paused : Bool) :
    (ReplaySession.checkSpeed speed = .error .Config ↔ speed ≤ 0) ∧
    (ReplaySession.checkSpeed speed = .ok () ↔ 0 < speed) ∧
    (TimingController.new speed paused).speed = max speed (1 / 100) := by
  refine ⟨?_, ?_, rfl⟩ <;> unfold ReplaySession.checkSpeed <;> split
  · next hle => simp [hle]
  · next hgt => simp [hgt]
  · next hle => simp [hle, not_lt.mpr hle]
  · next hgt => simp [lt_of_not_le hgt]

/-- Claim C8, counterexample to the literal statement: with a capacity-1
channel, no consumer, and `k = 2` produced chunks of the default
4096-sample size, the drop counter grows by 4096 samples — not by
`k - 1 = 1`; the counter counts dropped samples, not dropped chunks. -/
theorem glos_claim_C8_counterexample :
    (deviceRunSteps (SimulatedDevice.new 2000000 100000000 0) (fun j => j)
        (fun _ => []) 2 ⟨1, []⟩ ⟨0, 0, 0, 0, 0⟩ 0).2.dropped_samples = 4096 ∧
    (4096 : Nat) ≠ 2 - 1 :=
  ⟨by decide, by decide⟩

/-- Claim C8, amended: pushing `k ≥ 1` chunks into an initially empty
capacity-1 channel with no consumer never blocks; the first chunk is
enqueued and each subsequent chunk is discarded, so `dropped_samples`
grows by exactly `(k - 1) * chunk_samples`. -/
theorem glos_claim_C8 (dev : SimulatedDevice) (genTs : Nat → Nat)
    (genData : Nat → List Nat) (k : Nat) (hk : 1 ≤ k)
    (m : RecorderMetrics) (i : Nat) :
    ∃ ch' : BoundedChannel,
      deviceRunSteps dev genTs genData k ⟨1, []⟩ m i =
        (ch', { m with dropped_samples :=
          m.dropped_samples + (k - 1) * dev.chunk_samples }) := by
  obtain ⟨k', rfl⟩ : ∃ k', k = k' + 1 := ⟨k - 1, by omega⟩
  refine ⟨⟨1, [⟨genTs i, dev.chunk_samples, genData i⟩]⟩, ?_⟩
  have hstep : deviceRunSteps dev genTs genData (k' + 1) ⟨1, []⟩ m i =
      deviceRunSteps dev genTs genData k'
        ⟨1, [⟨genTs i, dev.chunk_samples, genData i⟩]⟩ m (i + 1) := by
    simp [deviceRunSteps, BoundedChannel.try_send]
  rw [hstep, deviceRunSteps_full dev genTs genData k' _ m (i + 1) (by simp)]
  norm_num

theorem glos_claim_C8_witness :
    ∃ ch' : BoundedChannel,
      deviceRunSteps (SimulatedDevice.new 2000000 100000000 0) (fun j => j)
          (fun _ => []) 3 ⟨1, []⟩ ⟨0, 0, 0, 0, 0⟩ 0 =
        (ch', { (⟨0, 0, 0, 0, 0⟩ : RecorderMetrics) with dropped_samples :=
          (⟨0, 0, 0, 0, 0⟩ : RecorderMetrics).dropped_samples +
            (3 - 1) * (SimulatedDevice.new 2000000 100000000 0).chunk_samples }) :=
  glos_claim_C8 (SimulatedDevice.new 2000000 100000000 0) (fun j => j)
    (fun _ => []) 3 (by decide) ⟨0, 0, 0, 0, 0⟩ 0

/-- Claim C9 (wire encoding): `UdpPacket::encode` errors exactly when the
sample count exceeds the 16-bit range or the framed size (10-byte header
plus payload) exceeds 65 507 bytes; otherwise it yields the
`10 + payload` byte big-endian `timestamp ‖ sample_count ‖ data` layout,
from which `UdpPacket::decode` recovers the original fields. -/
theorem glos_claim_C9 (b : IqBlock) (hts : b.timestamp_ns < 2 ^ 64) :
    (UdpPacket.encode b = .error () ↔
      65535 < b.sample_count ∨
        UDP_MAX_PAYLOAD < UDP_HEADER_SIZE + b.data.length) ∧
    ∀ buf, UdpPacket.encode b = .ok buf →
      buf.length = UDP_HEADER_SIZE + b.data.length ∧
      buf = toBEBytes 8 b.timestamp_ns ++ toBEBytes 2 b.sample_count ++
        b.data ∧
      UdpPacket.decode buf = .ok (b.timestamp_ns, b.sample_count, b.data) :=
  UdpPacket.encode_spec b hts

theorem glos_claim_C9_witness :
    (c4Block 1 1).timestamp_ns < 2 ^ 64 ∧
    ((UdpPacket.encode (c4Block 1 1) = .error () ↔
        65535 < (c4Block 1 1).sample_count ∨
          UDP_MAX_PAYLOAD < UDP_HEADER_SIZE + (c4Block 1 1).data.length) ∧
     ∀ buf, UdpPacket.encode (c4Block 1 1) = .ok buf →
       buf.length = UDP_HEADER_SIZE + (c4Block 1 1).data.length ∧
       buf = toBEBytes 8 (c4Block 1 1).timestamp_ns ++
         toBEBytes 2 (c4Block 1 1).sample_count ++ (c4Block 1 1).data ∧
       UdpPacket.decode buf =
         .ok ((c4Block 1 1).timestamp_ns, (c4Block 1 1).sample_count,
           (c4Block 1 1).data)) :=
  ⟨by decide, glos_claim_C9 (c4Block 1 1) (by decide)⟩

/-- Claim C10 (implicit): the device-type byte never makes `deserialize`
fail — any value outside `{0, 1, 2}` decodes as the `Unknown` device —
whereas an out-of-range sample-format byte (`≥ 3`) or compression byte
(`≥ 2`) fails with `FormatViolation` whatever the checksum field holds,
i.e. before the checksum comparison. -/
theorem glos_claim_C10 {h : GlosHeader} (hwf : h.WF) {v : Nat}
    (hv256 : v < 256) (hv0 : v ≠ 0) (hv1 : v ≠ 1) (hv2 : v ≠ 2)
    {w : Nat} (hw : 3 ≤ w) {u : Nat} (hu : 2 ≤ u) (crcW crcU : List Nat) :
    GlosHeader.deserialize (headerBufWithSdr h v) =
      .ok { h with sdr_type := SdrType.from_u8 v } ∧
    SdrType.from_u8 v = .Unknown ∧
    GlosHeader.deserialize (headerBufWithIq h w crcW) =
      .error .FormatViolation ∧
    GlosHeader.deserialize (headerBufWithComp h u crcU) =
      .error .FormatViolation :=
  ⟨deserialize_headerBufWithSdr hwf hv256,
   SdrType.from_u8_unknown v hv0 hv1 hv2,
   deserialize_headerBufWithIq hwf hw crcW,
   deserialize_headerBufWithComp hwf hu crcU⟩

theorem glos_claim_C10_witness :
    c4Header.WF ∧
    (GlosHeader.deserialize (headerBufWithSdr c4Header 7) =
        .ok { c4Header with sdr_type := SdrType.from_u8 7 } ∧
      SdrType.from_u8 7 = .Unknown ∧
      GlosHeader.deserialize (headerBufWithIq c4Header 3 [0, 0, 0, 0]) =
        .error .FormatViolation ∧
      GlosHeader.deserialize (headerBufWithComp c4Header 2 []) =
        .error .FormatViolation) :=
  ⟨by unfold GlosHeader.WF; decide,
   @glos_claim_C10 c4Header (by unfold GlosHeader.WF; decide) 7 (by decide)
     (by decide) (by decide) (by decide) 3 (by decide) 2 (by decide)
     [0, 0, 0, 0] []⟩

end Glos
